import Mathlib

/-!
# Notifications: the notify handlers and the sender creation handler

A shallow embedding of

* `web/handlers/notify.go` (`Notify.Execute`, `hasCriticalNotificationsWriteScope`),
* `web/handlers/notify_user.go` (`NotifyUser.ServeHTTP`),
* `v2/web/senders/create_handler.go` (`CreateHandler.ServeHTTP`).

Go strings and byte slices holding text are Lean strings. A Go function that
can panic returns an `Outcome`; the collaborators a handler holds behind an
interface are records of functions, and every call a handler makes to one is
appended to the `calls` of its run, in the order the calls are made.
-/

namespace Notifications

/-! ## Dynamic values -/

/-- An element of a `[]interface{}`: a string, or a value of another dynamic type. -/
inductive Elem where
  | str (s : String)
  | other (tag : Nat)
  deriving DecidableEq, Repr

/-- A value of `token.Claims`, a `map[string]interface{}`: `absent` is the nil
interface a missing key yields. -/
inductive Claim where
  | absent
  | str (s : String)
  | list (elems : List Elem)
  | other (tag : Nat)
  deriving DecidableEq, Repr

/-- The part of `jwt.Token` the handler reads. -/
structure Token where
  Claims : String → Claim

abbrev Connection := Nat

abbrev Time := Nat

/-- The `models.DatabaseInterface` value held in the context. -/
structure Database where
  Connection : Connection
  deriving DecidableEq, Repr

/-- What `stack.Context.Get` yields: `absent` is the nil interface. -/
inductive CtxValue where
  | absent
  | time (t : Time)
  | token (t : Token)
  | database (db : Database)
  | str (s : String)
  | other (tag : Nat)

/-- The `stack.Context` of a request. -/
structure Context where
  Get : String → CtxValue

/-- The key of the request receipt time in the context (a constant of package `handlers`). -/
def RequestReceivedTime : String := "request-received-time"

/-! ## Data of the notify request -/

/-- The `ParsedHTML` field of `params.Notify`. -/
structure HTML where
  BodyContent : String
  BodyAttributes : String
  Head : String
  Doctype : String
  deriving DecidableEq, Repr

/-- The fields of `params.Notify` that `Notify.Execute` reads. -/
structure NotifyParams where
  KindID : String
  Role : String
  To : String
  ReplyTo : String
  Subject : String
  Text : String
  ParsedHTML : HTML
  Errors : List String
  deriving DecidableEq, Repr

structure Client where
  ID : String
  Description : String
  deriving DecidableEq, Repr

structure Kind where
  ID : String
  Description : String
  Critical : Bool
  deriving DecidableEq, Repr

/-- A Go `error` value: `validation` is `params.ValidationError`, `criticalNotification`
is what `postal.NewCriticalNotificationError` builds, `other` is any other error. -/
inductive Error where
  | validation (errors : List String)
  | criticalNotification (kindID : String)
  | other (msg : String)
  deriving DecidableEq, Repr

structure DispatchClient where
  ID : String
  Description : String
  deriving DecidableEq, Repr

structure DispatchKind where
  ID : String
  Description : String
  deriving DecidableEq, Repr

structure DispatchVCAPRequest where
  ID : String
  ReceiptTime : Time
  deriving DecidableEq, Repr

structure DispatchMessage where
  To : String
  ReplyTo : String
  Subject : String
  Text : String
  HTML : HTML
  deriving DecidableEq, Repr

/-- The `services.Dispatch` value handed to the strategy. -/
structure Dispatch where
  GUID : String
  Connection : Connection
  Role : String
  Client : DispatchClient
  Kind : DispatchKind
  VCAPRequest : DispatchVCAPRequest
  Message : DispatchMessage
  deriving DecidableEq, Repr

/-- Modelled from the spec: `services.Response`, one entry of the notify entry
point's answer, `{recipient, status, notification_id}`; its declaration is not
among the sources. -/
structure Response where
  Recipient : String
  Status : String
  NotificationID : String
  deriving DecidableEq, Repr

/-! ## JSON encoding (`encoding/json`) -/

def hexDigit (n : Nat) : Char :=
  if n < 10 then Char.ofNat (48 + n) else Char.ofNat (87 + n)

/-- The characters `encoding/json` writes for one character of a string
(HTML escaping on, as `json.Marshal` has it). -/
def jsonEscapeChar (c : Char) : List Char :=
  if c = '"' then ['\\', '"']
  else if c = '\\' then ['\\', '\\']
  else if c = '\n' then ['\\', 'n']
  else if c = '\r' then ['\\', 'r']
  else if c = '\t' then ['\\', 't']
  else if c.toNat = 8 then ['\\', 'b']
  else if c.toNat = 12 then ['\\', 'f']
  else if c.toNat < 32 ∨ c = '<' ∨ c = '>' ∨ c = '&' then
    ['\\', 'u', '0', '0', hexDigit (c.toNat / 16), hexDigit (c.toNat % 16)]
  else if c.toNat = 8232 ∨ c.toNat = 8233 then
    ['\\', 'u', '2', '0', '2', hexDigit (c.toNat % 16)]
  else [c]

/-- A Go string as a JSON string literal. -/
def jsonString (s : String) : String :=
  "\"" ++ String.mk (s.data.flatMap jsonEscapeChar) ++ "\""

/-- One member of a JSON object. -/
def jsonMember (key value : String) : String :=
  jsonString key ++ ":" ++ jsonString value

def jsonResponse (r : Response) : String :=
  "\x7b" ++ jsonMember "recipient" r.Recipient ++ "," ++ jsonMember "status" r.Status ++ ","
    ++ jsonMember "notification_id" r.NotificationID ++ "\x7d"

/-- The call `json.Marshal(responses)` for a `[]services.Response`: `none` is the
nil slice, which encodes as `null`. -/
def jsonMarshalResponses : Option (List Response) → Except Error String
  | none => .ok "null"
  | some rs => .ok ("[" ++ ",".intercalate (rs.map jsonResponse) ++ "]")

/-! ## `Notify.Execute` -/

/-- The interface `services.NotificationsFinderInterface`. -/
structure Finder where
  ClientAndKind : Database → String → String → Except Error (Client × Kind)

/-- The interface `services.RegistrarInterface`: `none` is the nil error. -/
structure Registrar where
  Register : Connection → Client → List Kind → Option Error

/-- The interface `services.StrategyInterface`: the slice of responses (`none` is
the nil slice), or the error. -/
structure Strategy where
  Dispatch : Dispatch → Except Error (Option (List Response))

/-- The interface `ValidatorInterface`: `Validate` gets a pointer, so it yields the
parameters as it leaves them beside its verdict. -/
structure Validator where
  Validate : NotifyParams → Bool × NotifyParams

structure Notify where
  finder : Finder
  registrar : Registrar

/-- A call `Notify.Execute` makes, in the order of the source. -/
inductive Call where
  | newNotify (body : String)
  | validate (parameters : NotifyParams)
  | clientAndKind (db : Database) (clientID kindID : String)
  | register (connection : Connection) (client : Client) (kinds : List Kind)
  | dispatch (d : Dispatch)
  deriving DecidableEq, Repr

/-- How a call of a Go function with results `([]byte, error)` ends. -/
inductive Outcome where
  | ret (output : String) (err : Option Error)
  | panicked (msg : String)
  deriving DecidableEq, Repr

structure Run where
  outcome : Outcome
  calls : List Call
  deriving DecidableEq, Repr

/-- The loop of `hasCriticalNotificationsWriteScope`; `none` when `elem.(string)` panics. -/
def scanScope : List Elem → Option Bool
  | [] => some false
  | .str s :: rest => if s = "critical_notifications.write" then some true else scanScope rest
  | .other _ :: _ => none

/-- `none` when a type assertion panics. -/
def hasCriticalNotificationsWriteScope : Claim → Option Bool
  | .list elems => scanScope elems
  | _ => none

/-- The part of `http.Request` the handlers read: `Path` is `req.URL.Path`. -/
structure Request where
  Path : String
  Body : String
  deriving DecidableEq, Repr

def conversionPanic : String := "interface conversion"

/-- The `services.Dispatch` literal `Notify.Execute` hands to `strategy.Dispatch`. -/
def dispatchOf (guid : String) (connection : Connection) (parameters : NotifyParams)
    (clientID : String) (client : Client) (kind : Kind) (vcapRequestID : String)
    (requestReceivedTime : Time) : Dispatch :=
  { GUID := guid
    Connection := connection
    Role := parameters.Role
    Client := { ID := clientID, Description := client.Description }
    Kind := { ID := parameters.KindID, Description := kind.Description }
    VCAPRequest := { ID := vcapRequestID, ReceiptTime := requestReceivedTime }
    Message :=
      { To := parameters.To
        ReplyTo := parameters.ReplyTo
        Subject := parameters.Subject
        Text := parameters.Text
        HTML :=
          { BodyContent := parameters.ParsedHTML.BodyContent
            BodyAttributes := parameters.ParsedHTML.BodyAttributes
            Head := parameters.ParsedHTML.Head
            Doctype := parameters.ParsedHTML.Doctype } } }

/-- `Notify.Execute`; `newNotify` is `params.NewNotify`, which is not among the sources. -/
def Notify.Execute (handler : Notify) (newNotify : String → Except Error NotifyParams)
    (connection : Connection) (req : Request) (context : Context) (guid : String)
    (strategy : Strategy) (validator : Validator) (vcapRequestID : String) : Run :=
  let c1 := [Call.newNotify req.Body]
  match newNotify req.Body with
  | .error err => ⟨.ret "" (some err), c1⟩
  | .ok parsed =>
    let c2 := c1 ++ [Call.validate parsed]
    match validator.Validate parsed with
    | (false, parameters) => ⟨.ret "" (some (.validation parameters.Errors)), c2⟩
    | (true, parameters) =>
      match context.Get RequestReceivedTime with
      | .time requestReceivedTime =>
        match context.Get "token" with
        | .token token =>
          match token.Claims "client_id" with
          | .str clientID =>
            match context.Get "database" with
            | .database db =>
              let c3 := c2 ++ [Call.clientAndKind db clientID parameters.KindID]
              match handler.finder.ClientAndKind db clientID parameters.KindID with
              | .error err => ⟨.ret "" (some err), c3⟩
              | .ok (client, kind) =>
                let rejected : Option Bool :=
                  if kind.Critical then
                    (hasCriticalNotificationsWriteScope (token.Claims "scope")).map (fun b => !b)
                  else some false
                match rejected with
                | none => ⟨.panicked conversionPanic, c3⟩
                | some true => ⟨.ret "" (some (.criticalNotification kind.ID)), c3⟩
                | some false =>
                  let c4 := c3 ++ [Call.register connection client [kind]]
                  match handler.registrar.Register connection client [kind] with
                  | some err => ⟨.ret "" (some err), c4⟩
                  | none =>
                    let d := dispatchOf guid connection parameters clientID client kind
                      vcapRequestID requestReceivedTime
                    let c5 := c4 ++ [Call.dispatch d]
                    match strategy.Dispatch d with
                    | .error err => ⟨.ret "" (some err), c5⟩
                    | .ok responses =>
                      match jsonMarshalResponses responses with
                      | .error err => ⟨.panicked (toString (repr err)), c5⟩
                      | .ok output => ⟨.ret output none, c5⟩
            | _ => ⟨.panicked conversionPanic, c2⟩
          | _ => ⟨.panicked conversionPanic, c2⟩
        | _ => ⟨.panicked conversionPanic, c2⟩
      | _ =>
        ⟨.panicked "programmer error: missing handlers.RequestReceivedTime in http context", c2⟩

/-- The call goes to the finder, the registrar or the dispatch strategy. -/
def Call.consults : Call → Bool
  | .clientAndKind _ _ _ => true
  | .register _ _ _ => true
  | .dispatch _ => true
  | _ => false

/-- The request gets past parsing, validation and the reads of the context, with these values. -/
def ReachesLookup (newNotify : String → Except Error NotifyParams) (validator : Validator)
    (req : Request) (context : Context) (parsed parameters : NotifyParams) (t : Time)
    (token : Token) (clientID : String) (db : Database) : Prop :=
  newNotify req.Body = .ok parsed ∧ validator.Validate parsed = (true, parameters)
    ∧ context.Get RequestReceivedTime = .time t ∧ context.Get "token" = .token token
    ∧ token.Claims "client_id" = .str clientID ∧ context.Get "database" = .database db

/-! ## A concrete request, used to evaluate the handler -/

def sampleParams : NotifyParams :=
  { KindID := "unsubscribe-acceptance-test", Role := "", To := "", ReplyTo := "",
    Subject := "my-special-subject", Text := "",
    ParsedHTML := { BodyContent := "<p>this is an acceptance test</p>", BodyAttributes := "",
                    Head := "", Doctype := "" },
    Errors := [] }

def sampleNewNotify (body : String) : Except Error NotifyParams :=
  if body = "" then .error (.other "unexpected end of JSON input") else .ok sampleParams

def sampleRequest : Request :=
  { Path := "/users/user-123", Body := "\x7b\"kind_id\":\"unsubscribe-acceptance-test\"\x7d" }

def sampleToken (scope : List String) : Token :=
  { Claims := fun key =>
      if key = "client_id" then .str "notifications-sender"
      else if key = "scope" then .list (scope.map Elem.str)
      else .absent }

def sampleContext (scope : List String) : Context :=
  { Get := fun key =>
      if key = RequestReceivedTime then .time 1400000000
      else if key = "token" then .token (sampleToken scope)
      else if key = "database" then .database { Connection := 7 }
      else .absent }

def sampleClient : Client := { ID := "notifications-sender", Description := "Notifications Sender" }

def sampleKind (critical : Bool) : Kind :=
  { ID := "unsubscribe-acceptance-test", Description := "Unsubscribe Acceptance Test",
    Critical := critical }

def sampleNotify (critical : Bool) (registered : Option Error) : Notify :=
  { finder := { ClientAndKind := fun _ _ _ => .ok (sampleClient, sampleKind critical) },
    registrar := { Register := fun _ _ _ => registered } }

def sampleResponses : List Response :=
  [{ Recipient := "user-123", Status := "queued", NotificationID := "abc-1" }]

def sampleStrategy : Strategy := { Dispatch := fun _ => .ok (some sampleResponses) }

def acceptAll : Validator := { Validate := fun p => (true, p) }

def rejectAll (errors : List String) : Validator :=
  { Validate := fun p => (false, { p with Errors := errors }) }

def sampleRun (critical : Bool) (scope : List String) (registered : Option Error)
    (validator : Validator) : Run :=
  (sampleNotify critical registered).Execute sampleNewNotify 7 sampleRequest
    (sampleContext scope) "user-123" sampleStrategy validator "vcap-1"

/-! ## Role validation of an organization target -/

/-- Modelled from the spec: the roles an organization target accepts (section 4.1); the
validators of package `params` are not among the sources. -/
def validOrganizationRoles : List String := ["OrgManager", "OrgAuditor", "BillingManager"]

/-- Modelled from the spec: the message of an invalid role (section 4.1), as the
acceptance test `SendNotificationsToOrganizationInvalidRole` reads it. -/
def invalidRoleMessage : String :=
  "\"role\" must be \"OrgManager\", \"OrgAuditor\", \"BillingManager\" or unset"

/-- Modelled from the spec: the errors the role of an organization target gives; an
unset role is the empty string. -/
def roleErrors (role : String) : List String :=
  if role = "" ∨ role ∈ validOrganizationRoles then [] else [invalidRoleMessage]

/-- Modelled from the spec: the validator of an organization target as far as the role
goes; it leaves its errors in the parameters and accepts when there is none. -/
def organizationValidator : Validator :=
  { Validate := fun parameters =>
      ((roleErrors parameters.Role).isEmpty,
        { parameters with Errors := roleErrors parameters.Role }) }

def sampleNewNotifyRole (role : String) (body : String) : Except Error NotifyParams :=
  if body = "" then .error (.other "unexpected end of JSON input")
  else .ok { sampleParams with KindID := "organization-role-test", Role := role }

/-! ## `NotifyUser.ServeHTTP` -/

/-- What has been written to an `http.ResponseWriter`: `Code` is 0 until the header is written. -/
structure ResponseWriter where
  Code : Nat
  Body : String
  deriving DecidableEq, Repr

def ResponseWriter.WriteHeader (w : ResponseWriter) (code : Nat) : ResponseWriter :=
  if w.Code = 0 then { w with Code := code } else w

def ResponseWriter.Write (w : ResponseWriter) (data : String) : ResponseWriter :=
  { Code := if w.Code = 0 then 200 else w.Code, Body := w.Body ++ data }

/-- The part of `cf.CloudControllerUser` the handler sets. -/
structure CloudControllerUser where
  Guid : String
  deriving DecidableEq, Repr

/-- `strings.HasPrefix`. -/
def HasPrefix (s pre : String) : Bool := pre.data.isPrefixOf s.data

/-- `strings.TrimPrefix`. -/
def TrimPrefix (s pre : String) : String :=
  if HasPrefix s pre then String.mk (s.data.drop pre.data.length) else s

/-- The type of the loader handed to the notify helper. -/
abbrev UserLoader := String → String → List CloudControllerUser × Option Error

/-- `NotifyHelper`, whose `NotifyServeHTTP` is not among the sources: some function of
the writer, the request, the recipient GUID, the loader and the space flag. -/
structure NotifyHelper (ρ : Type) where
  NotifyServeHTTP : ResponseWriter → Request → String → UserLoader → Bool → ρ

/-- The field of `NotifyUser` that `ServeHTTP` uses. -/
structure NotifyUser (ρ : Type) where
  helper : NotifyHelper ρ

/-- The closure `loadUsers` of `NotifyUser.ServeHTTP`. -/
def NotifyUser.loadUsers : UserLoader :=
  fun userGuid _accessToken => ([{ Guid := userGuid }], none)

def NotifyUser.ServeHTTP {ρ : Type} (handler : NotifyUser ρ) (w : ResponseWriter)
    (req : Request) : ρ :=
  let userGUID := TrimPrefix req.Path "/users/"
  let loadUsers := NotifyUser.loadUsers
  let loadSpaceAndOrganization := false
  handler.helper.NotifyServeHTTP w req userGUID loadUsers loadSpaceAndOrganization

/-- The arguments of a call of `NotifyServeHTTP`. -/
structure HelperCall where
  w : ResponseWriter
  req : Request
  guid : String
  loadUsers : UserLoader
  loadSpaceAndOrganization : Bool

/-- A helper that only records how it is called. -/
def recordingHelper : NotifyHelper HelperCall :=
  { NotifyServeHTTP := fun w req guid loadUsers flag => ⟨w, req, guid, loadUsers, flag⟩ }

/-! ## `senders.CreateHandler.ServeHTTP` -/

/-- The fields of `collections.Sender` the handler uses. -/
structure Sender where
  ID : String
  Name : String
  ClientID : String
  deriving DecidableEq, Repr

/-- The interface `collectionSetter`; an error stands as its `Error()` text, which is
all the handler uses of it. -/
structure CollectionSetter where
  Set : Connection → Sender → Except String Sender

structure CreateHandler where
  senders : CollectionSetter

/-- A call of `Set`. -/
structure SetCall where
  conn : Connection
  sender : Sender
  deriving DecidableEq, Repr

/-- How `CreateHandler.ServeHTTP` ends: what it wrote (`none` when it panics) and its
calls of `Set`. -/
structure CreateRun where
  response : Option ResponseWriter
  calls : List SetCall
  deriving DecidableEq, Repr

/-- The comparison `clientID == ""` of an `interface{}` with a string. -/
def CtxValue.isEmptyString : CtxValue → Bool
  | .str s => s = ""
  | _ => false

/-- A JSON object with these members, in this order. -/
def jsonObject (members : List (String × String)) : String :=
  "\x7b" ++ ",".intercalate (members.map fun m => jsonMember m.1 m.2) ++ "\x7d"

/-- The call `json.Marshal` of the map literal with the keys `id` and `name`; the
encoder writes the keys of a map in sorted order. -/
def jsonMarshalSender (id name : String) : String :=
  jsonObject [("id", id), ("name", name)]

/-- `CreateHandler.ServeHTTP`; `decode` is the decoding of the body into
`createRequest`, yielding its `Name`. -/
def CreateHandler.ServeHTTP (h : CreateHandler) (decode : String → Except Error String)
    (w : ResponseWriter) (req : Request) (context : Context) : CreateRun :=
  match decode req.Body with
  | .error _ =>
    ⟨some ((w.WriteHeader 400).Write "\x7b \"errors\": [ \"invalid json body\" ] \x7d"), []⟩
  | .ok name =>
    match context.Get "database" with
    | .database database =>
      if name = "" then
        ⟨some ((w.WriteHeader 422).Write "\x7b \"errors\": [ \"missing sender name\" ] \x7d"), []⟩
      else
        let clientID := context.Get "client_id"
        if clientID.isEmptyString then
          ⟨some ((w.WriteHeader 401).Write "\x7b \"errors\": [ \"missing client id\" ] \x7d"), []⟩
        else
          match context.Get "client_id" with
          | .str client =>
            let arg : Sender := { ID := "", Name := name, ClientID := client }
            let calls := [SetCall.mk database.Connection arg]
            match h.senders.Set database.Connection arg with
            | .error err =>
              ⟨some ((w.WriteHeader 500).Write
                ("\x7b \"errors\": [ \"" ++ err ++ "\" ] \x7d")), calls⟩
            | .ok sender =>
              let createResponse := jsonMarshalSender sender.ID sender.Name
              ⟨some ((w.WriteHeader 201).Write createResponse), calls⟩
          | _ => ⟨none, []⟩
    | _ => ⟨none, []⟩

def sampleCreateContext (clientID : String) : Context :=
  { Get := fun key =>
      if key = "database" then .database { Connection := 7 }
      else if key = "client_id" then .str clientID
      else .absent }

def sampleDecode (body : String) : Except Error String :=
  if body = "" then .error (.other "EOF") else .ok "my-sender"

def sampleSenders : CollectionSetter :=
  { Set := fun _ sender => .ok { sender with ID := "sender-1" } }

def sampleCreateRequest : Request :=
  { Path := "/senders", Body := "\x7b\"name\":\"my-sender\"\x7d" }

/-! ## The preference gate -/

/-- Modelled from the spec: a row of the preference store (section 3), keyed by client
id, kind id and user id; package `models` is not among the sources. -/
structure Preference where
  ClientID : String
  KindID : String
  UserID : String
  Email : Bool
  GlobalUnsubscribe : Bool
  deriving DecidableEq, Repr

/-- Modelled from the spec: the key of a preference row (section 3). -/
def Preference.hasKey (p : Preference) (clientID kindID userID : String) : Bool :=
  p.ClientID = clientID ∧ p.KindID = kindID ∧ p.UserID = userID

/-- Modelled from the spec: the preference store, as its rows. -/
abbrev PreferenceStore := List Preference

/-- Modelled from the spec: `Get(clientID, kindID, userID)` of the preference store
(section 6), the row of this key when there is one. -/
def PreferenceStore.Get (store : PreferenceStore) (clientID kindID userID : String) :
    Option Preference :=
  store.find? fun p => p.hasKey clientID kindID userID

/-- Modelled from the spec: a resolved recipient (section 3). -/
structure Recipient where
  Identifier : String
  Email : String
  Space : String
  Organization : String
  deriving DecidableEq, Repr

/-- Modelled from the spec: the preference gate `Allow(recipient, kind, clientID)`
(section 4.2), run on a store and yielding its verdict and the store as it leaves it;
the gate is not among the sources. -/
def Allow (store : PreferenceStore) (recipient : Recipient) (kind : Kind) (clientID : String) :
    Bool × PreferenceStore :=
  match store.Get clientID kind.ID recipient.Identifier with
  | none => (true, store)
  | some row => (row.Email && !row.GlobalUnsubscribe, store)

/-! ## `SpaceLoader.Load` -/

/-- Modelled from the spec: the space the membership client answers (section 6), with
the fields the test of `SpaceLoader` sets; package `cf` is not among the sources. -/
structure CloudControllerSpace where
  Guid : String
  Name : String
  OrganizationGuid : String
  deriving DecidableEq, Repr

/-- Modelled from the spec: the organization the membership client answers (section 6). -/
structure CloudControllerOrganization where
  Guid : String
  Name : String
  deriving DecidableEq, Repr

/-- Modelled from the spec: the errors section 4.1 tells apart: `Failure` is the
upstream `cf.Failure` with its status and message, `CCNotFoundError` and `CCDownError`
are the two classes of package `postal`, `other` is any other error. -/
inductive LoadError where
  | Failure (code : Nat) (message : String)
  | CCNotFoundError (message : String)
  | CCDownError (message : String)
  | other (message : String)
  deriving DecidableEq, Repr

/-- Modelled from the spec: the text of an error, as the test of `SpaceLoader` reads it
for a failure. -/
def LoadError.Error : LoadError → String
  | .Failure code message => "CloudController Failure (" ++ toString code ++ "): " ++ message
  | .CCNotFoundError message => message
  | .CCDownError message => message
  | .other message => message

/-- Modelled from the spec: the membership client as `SpaceLoader` uses it (section 6). -/
structure CloudController where
  LoadSpace : String → String → Except LoadError CloudControllerSpace
  LoadOrganization : String → String → Except LoadError CloudControllerOrganization

/-- Modelled from the spec: the failure classification of section 4.1: an upstream
failure with status 404 is a not-found error carrying the upstream description, any
other upstream failure is the unavailable error, every other error passes through. -/
def classifyError : LoadError → LoadError
  | .Failure code message =>
    if code = 404 then
      .CCNotFoundError ("CloudController Error: " ++ (LoadError.Failure code message).Error)
    else .CCDownError "CloudController is unavailable"
  | err => err

/-- Modelled from the spec: what kind of target a guid stands for. -/
inductive NotificationType where
  | IsSpace
  | IsUser
  deriving DecidableEq, Repr

structure SpaceLoader where
  cloudController : CloudController

/-- Modelled from the spec: `SpaceLoader.Load(guid, token, type)`, which is not among
the sources (section 4.1, `Space(guid)`): nothing is loaded for a user; for a space the
space is looked up, then its organization, and the first error ends the load. The
results are the space name, the organization name and the error. -/
def SpaceLoader.Load (loader : SpaceLoader) (guid token : String) (t : NotificationType) :
    String × String × Option LoadError :=
  match t with
  | .IsUser => ("", "", none)
  | .IsSpace =>
    match loader.cloudController.LoadSpace guid token with
    | .error err => ("", "", some (classifyError err))
    | .ok space =>
      match loader.cloudController.LoadOrganization space.OrganizationGuid token with
      | .error err => ("", "", some (classifyError err))
      | .ok org => (space.Name, org.Name, none)

/-- The cloud controller of the test of `SpaceLoader`: one space, and its organization
unless `withOrg` is off; `spaceError` and `orgError` are the errors the test injects. -/
def sampleCloudController (withOrg : Bool) (spaceError orgError : Option LoadError) :
    CloudController :=
  { LoadSpace := fun guid _ =>
      match spaceError with
      | some err => .error err
      | none =>
        if guid = "space-001" then
          .ok { Guid := "space-001", Name := "space-name", OrganizationGuid := "org-001" }
        else
          .error (.Failure 404 ("\x7b\"code\":40004,\"description\":\"The app space could not be found: "
            ++ guid ++ "\",\"error_code\":\"CF-SpaceNotFound\"\x7d"))
    LoadOrganization := fun guid _ =>
      match orgError with
      | some err => .error err
      | none =>
        if guid = "org-001" ∧ withOrg = true then
          .ok { Guid := "org-001", Name := "org-name" }
        else
          .error (.Failure 404 ("\x7b\"code\":30003,\"description\":\"The organization could not be found: "
            ++ guid ++ "\",\"error_code\":\"CF-OrganizationNotFound\"\x7d")) }

/-! ## Delivery jobs and the completion of a campaign -/

/-- Modelled from the spec: the states of a delivery job (section 3); the delivery
queue and its workers are not among the sources. -/
inductive JobState where
  | Queued
  | Sending
  | Sent
  | Retrying
  | Failed
  deriving DecidableEq, Repr

/-- Modelled from the spec: the terminal states, `Sent` and `Failed` (section 3). -/
def JobState.terminal : JobState → Bool
  | .Sent => true
  | .Failed => true
  | _ => false

/-- Modelled from the spec: the states a worker may claim, `Queued` and `Retrying`
(section 4.4). -/
def JobState.claimable : JobState → Bool
  | .Queued => true
  | .Retrying => true
  | _ => false

/-- Modelled from the spec: a delivery job (section 3). -/
structure DeliveryJob where
  CampaignID : String
  Recipient : Recipient
  Message : String
  State : JobState
  Attempts : Nat
  LastError : Option String
  deriving DecidableEq, Repr

/-- Modelled from the spec: what the mail transport reports for one send (sections 6
and 7): success, a transient error or a permanent error. -/
inductive SendResult where
  | sent
  | transient (err : String)
  | permanent (err : String)
  deriving DecidableEq, Repr

/-- Modelled from the spec: the claim of a job by a worker (section 4.4): a `Queued` or
`Retrying` job goes to `Sending`, a job in another state is not claimed. -/
def DeliveryJob.claim (job : DeliveryJob) : Option DeliveryJob :=
  if job.State.claimable then some { job with State := .Sending } else none

/-- Modelled from the spec: the end of a send attempt on a job in state `Sending`
(sections 4.4 and 7): success gives `Sent`; a transient error adds one to the attempt
count and gives `Retrying` while the count is below the retry budget, `Failed` with the
error recorded otherwise; a permanent error gives `Failed` at once. -/
def DeliveryJob.finish (maxAttempts : Nat) (job : DeliveryJob) : SendResult → DeliveryJob
  | .sent => { job with State := .Sent }
  | .transient err =>
    if job.Attempts + 1 < maxAttempts then
      { job with State := .Retrying, Attempts := job.Attempts + 1 }
    else { job with State := .Failed, Attempts := job.Attempts + 1, LastError := some err }
  | .permanent err => { job with State := .Failed, LastError := some err }

/-- Modelled from the spec: a worker driving one job (section 4.4): while the job can
be claimed it claims it, sends, and ends the attempt with what the transport reports;
`transport n` is the report for the `n`-th send, `sends` counts the sends made so far,
and the first argument bounds the number of rounds. The result is the job and the
number of sends made. -/
def deliver (maxAttempts : Nat) (transport : Nat → SendResult) :
    Nat → DeliveryJob → Nat → DeliveryJob × Nat
  | 0, job, sends => (job, sends)
  | fuel + 1, job, sends =>
    match job.claim with
    | none => (job, sends)
    | some sending =>
      deliver maxAttempts transport fuel
        (sending.finish maxAttempts (transport (sends + 1))) (sends + 1)

/-- Modelled from the spec: what a worker does to a job (section 4.4). -/
inductive JobEvent where
  | claim
  | finish (result : SendResult)
  deriving DecidableEq, Repr

/-- Modelled from the spec: a job after an event (section 4.4): a claim moves a
claimable job, the end of an attempt moves a job in state `Sending`, and a job in any
other state stays as it is (a `Sent` or `Failed` job is never moved again). -/
def DeliveryJob.apply (maxAttempts : Nat) (job : DeliveryJob) : JobEvent → DeliveryJob
  | .claim => job.claim.getD job
  | .finish result => if job.State = .Sending then job.finish maxAttempts result else job

/-- Modelled from the spec: a campaign as its jobs and the times of its status
(sections 3 and 4.5). -/
structure CampaignRun where
  jobs : List DeliveryJob
  startTime : Time
  completedTime : Option Time
  deriving DecidableEq, Repr

/-- Modelled from the spec: the enqueue of a campaign (section 4.4): one `Queued` job
for each admitted recipient and its rendered message. -/
def CampaignRun.enqueue (campaignID : String) (messages : List (Recipient × String))
    (start : Time) : CampaignRun :=
  { jobs := messages.map fun m =>
      { CampaignID := campaignID, Recipient := m.1, Message := m.2, State := .Queued,
        Attempts := 0, LastError := none }
    startTime := start
    completedTime := none }

/-- The list with `f` applied to its `i`-th element. -/
def applyAt (f : DeliveryJob → DeliveryJob) : Nat → List DeliveryJob → List DeliveryJob
  | _, [] => []
  | 0, job :: jobs => f job :: jobs
  | i + 1, job :: jobs => job :: applyAt f i jobs

def allTerminal (jobs : List DeliveryJob) : Bool :=
  jobs.all fun job => job.State.terminal

/-- Modelled from the spec: one event on the `i`-th job of a campaign at time `now`
(section 4.5): the completion time, once set, stays; it is set when the event takes a
job that was not terminal to a terminal state and no job is left that is not terminal. -/
def CampaignRun.step (maxAttempts : Nat) (c : CampaignRun) (i : Nat) (event : JobEvent)
    (now : Time) : CampaignRun :=
  let jobs := applyAt (fun job => job.apply maxAttempts event) i c.jobs
  let lastDone : Bool :=
    match c.jobs.get? i with
    | some job =>
      !job.State.terminal && (job.apply maxAttempts event).State.terminal && allTerminal jobs
    | none => false
  { jobs := jobs
    startTime := c.startTime
    completedTime :=
      match c.completedTime with
      | some t => some t
      | none => if lastDone then some now else none }

/-- An event of a campaign: the job it is on, what happens, and when. -/
structure CampaignEvent where
  job : Nat
  event : JobEvent
  time : Time
  deriving DecidableEq, Repr

/-- The campaign after a sequence of events. -/
def CampaignRun.run (maxAttempts : Nat) (c : CampaignRun) : List CampaignEvent → CampaignRun
  | [] => c
  | e :: events => (c.step maxAttempts e.job e.event e.time).run maxAttempts events

def sampleRecipient : Recipient :=
  { Identifier := "user-111", Email := "user-111@example.com", Space := "", Organization := "" }

def sampleJob : DeliveryJob :=
  { CampaignID := "campaign-1", Recipient := sampleRecipient, Message := "campaign body",
    State := .Queued, Attempts := 0, LastError := none }

/-! ## Reading a JSON string literal -/

/-- The value of a hexadecimal digit. -/
def hexValue (c : Char) : Option Nat :=
  if 48 ≤ c.toNat ∧ c.toNat ≤ 57 then some (c.toNat - 48)
  else if 97 ≤ c.toNat ∧ c.toNat ≤ 102 then some (c.toNat - 87)
  else if 65 ≤ c.toNat ∧ c.toNat ≤ 70 then some (c.toNat - 55)
  else none

/-- The character a two-character escape of a JSON string stands for (RFC 8259,
section 7). -/
def simpleEscape (e : Char) : Option Char :=
  if e = '"' then some '"'
  else if e = '\\' then some '\\'
  else if e = '/' then some '/'
  else if e = 'b' then some (Char.ofNat 8)
  else if e = 'f' then some (Char.ofNat 12)
  else if e = 'n' then some '\n'
  else if e = 'r' then some '\r'
  else if e = 't' then some '\t'
  else none

/-- The characters of a JSON string literal after its opening quote (RFC 8259, section
7), read up to the closing quote: the characters the literal stands for, and what
follows the closing quote. A quote, a backslash or a control character has to be
escaped; a `\u` escape in the surrogate range is refused, the pairs they form are not
read. -/
def readJsonChars : List Char → Option (List Char × List Char)
  | [] => none
  | c :: rest =>
    if c = '"' then some ([], rest)
    else if c = '\\' then
      match rest with
      | [] => none
      | e :: rest =>
        if e = 'u' then
          match rest with
          | a :: b :: c2 :: d :: rest =>
            match hexValue a, hexValue b, hexValue c2, hexValue d with
            | some x, some y, some z, some w =>
              if 55296 ≤ ((x * 16 + y) * 16 + z) * 16 + w
                  ∧ ((x * 16 + y) * 16 + z) * 16 + w ≤ 57343 then none
              else
                (readJsonChars rest).map fun r =>
                  (Char.ofNat (((x * 16 + y) * 16 + z) * 16 + w) :: r.1, r.2)
            | _, _, _, _ => none
          | _ => none
        else
          match simpleEscape e with
          | some ch => (readJsonChars rest).map fun r => (ch :: r.1, r.2)
          | none => none
    else if c.toNat < 32 then none
    else (readJsonChars rest).map fun r => (c :: r.1, r.2)

/-- The string a JSON string literal stands for; `none` when the text is not one JSON
string literal. -/
def jsonUnquote (s : String) : Option String :=
  match s.data with
  | [] => none
  | c :: rest =>
    if c = '"' then
      match readJsonChars rest with
      | some (chars, []) => some (String.mk chars)
      | _ => none
    else none

/-- Two responses, the second with characters the encoder has to escape. -/
def sampleEscapedResponses : List Response :=
  [{ Recipient := "user-123", Status := "queued", NotificationID := "abc-1" },
   { Recipient := "a\"b\\c<d>&e\nf", Status := "queued", NotificationID := "x\x01y" }]

def sampleEscapedStrategy : Strategy :=
  { Dispatch := fun _ => .ok (some sampleEscapedResponses) }

/-- A collection that names the sender it stores with characters the encoder has to
escape. -/
def sampleEscapedSenders : CollectionSetter :=
  { Set := fun _ sender =>
      .ok { sender with ID := "sender-1", Name := "my \"best\" <sender>" } }

/-- A finder that knows one critical kind beside the non-critical ones. -/
def sampleMixedNotify : Notify :=
  { finder :=
      { ClientAndKind := fun _ _ kindID =>
          .ok (sampleClient,
            { ID := kindID, Description := "a kind", Critical := kindID = "critical-kind" }) }
    registrar := { Register := fun _ _ _ => none } }

/-! ## Theorems on the JSON encoding -/

theorem hexValue_hexDigit (d : Nat) (h : d < 16) : hexValue (hexDigit d) = some d := by
  interval_cases d <;> rfl

theorem char_of_toNat (c : Char) (n : Nat) (h : c.toNat = n) : Char.ofNat n = c := by
  rw [← h]
  exact Char.ofNat_toNat c

/-- Reading what the encoder writes for one character gives back the character. -/
theorem readJsonChars_escape (c : Char) (l : List Char) :
    readJsonChars (jsonEscapeChar c ++ l)
      = (readJsonChars l).map fun r => (c :: r.1, r.2) := by
  unfold jsonEscapeChar
  split_ifs with h1 h2 h3 h4 h5 h6 h7 h8 h9
  · subst h1
    rw [readJsonChars.eq_def]
    simp [simpleEscape]
  · subst h2
    rw [readJsonChars.eq_def]
    simp [simpleEscape]
  · subst h3
    rw [readJsonChars.eq_def]
    simp [simpleEscape]
  · subst h4
    rw [readJsonChars.eq_def]
    simp [simpleEscape]
  · subst h5
    rw [readJsonChars.eq_def]
    simp [simpleEscape]
  · have hc := char_of_toNat c 8 h6
    subst hc
    rw [readJsonChars.eq_def]
    simp [simpleEscape]
  · have hc := char_of_toNat c 12 h7
    subst hc
    rw [readJsonChars.eq_def]
    simp [simpleEscape]
  · have hlt : c.toNat < 64 := by
      rcases h8 with h | h | h | h
      · omega
      · subst h; decide
      · subst h; decide
      · subst h; decide
    have hx := hexValue_hexDigit (c.toNat / 16) (by omega)
    have hy := hexValue_hexDigit (c.toNat % 16) (by omega)
    have h0 : hexValue '0' = some 0 := rfl
    have hn : ((0 * 16 + 0) * 16 + c.toNat / 16) * 16 + c.toNat % 16 = c.toNat := by omega
    rw [readJsonChars.eq_def]
    simp only [List.cons_append, List.nil_append, h0, hx, hy, hn, Char.ofNat_toNat]
    have hs : ¬ (55296 ≤ c.toNat ∧ c.toNat ≤ 57343) := by omega
    simp [hs]
  · have h2 : hexValue '2' = some 2 := rfl
    have h0 : hexValue '0' = some 0 := rfl
    have hy := hexValue_hexDigit (c.toNat % 16) (by omega)
    have hn : ((2 * 16 + 0) * 16 + 2) * 16 + c.toNat % 16 = c.toNat := by omega
    rw [readJsonChars.eq_def]
    simp only [List.cons_append, List.nil_append, h0, h2, hy, hn, Char.ofNat_toNat]
    have hs : ¬ (55296 ≤ c.toNat ∧ c.toNat ≤ 57343) := by omega
    simp [hs]
  · rw [readJsonChars.eq_def]
    have hlt : ¬ c.toNat < 32 := fun h => h8 (Or.inl h)
    simp [h1, h2, hlt]

theorem readJsonChars_encoded (s : List Char) (tail : List Char) :
    readJsonChars (s.flatMap jsonEscapeChar ++ '"' :: tail) = some (s, tail) := by
  induction s with
  | nil =>
    rw [readJsonChars.eq_def]
    simp
  | cons c s ih =>
    rw [List.flatMap_cons, List.append_assoc, readJsonChars_escape, ih]
    rfl

/-- What the encoder writes for a string is a JSON string literal that stands for it. -/
theorem jsonUnquote_jsonString (s : String) : jsonUnquote (jsonString s) = some s := by
  have hdata : (jsonString s).data = '"' :: (s.data.flatMap jsonEscapeChar ++ ['"']) := by
    simp [jsonString, String.data_append]
  simp [jsonUnquote, hdata, readJsonChars_encoded]

theorem jsonResponse_eq (r : Response) :
    jsonResponse r
      = "\x7b\"recipient\":" ++ jsonString r.Recipient ++ ",\"status\":" ++ jsonString r.Status
          ++ ",\"notification_id\":" ++ jsonString r.NotificationID ++ "\x7d" := by
  have h1 : jsonString "recipient" = "\"recipient\"" := by decide
  have h2 : jsonString "status" = "\"status\"" := by decide
  have h3 : jsonString "notification_id" = "\"notification_id\"" := by decide
  apply String.ext
  simp only [jsonResponse, jsonMember, h1, h2, h3, String.data_append]
  simp

theorem jsonMarshalSender_eq (id name : String) :
    jsonMarshalSender id name
      = "\x7b\"id\":" ++ jsonString id ++ ",\"name\":" ++ jsonString name ++ "\x7d" := by
  have h1 : jsonString "id" = "\"id\"" := by decide
  have h2 : jsonString "name" = "\"name\"" := by decide
  apply String.ext
  simp only [jsonMarshalSender, jsonObject, jsonMember, h1, h2, String.data_append,
    List.map_cons, List.map_nil, String.intercalate, String.intercalate.go]
  simp

/-! ## Theorems on `Notify.Execute` -/

theorem scanScope_strings (scope : List String) :
    scanScope (scope.map Elem.str)
      = some (decide ("critical_notifications.write" ∈ scope)) := by
  induction scope with
  | nil => simp [scanScope]
  | cons s rest ih =>
    by_cases h : s = "critical_notifications.write"
    · simp [scanScope, h]
    · have h2 : ¬ "critical_notifications.write" = s := fun e => h e.symm
      simp [scanScope, h, h2, ih]

/-- C1: when parsing, validation and the client/kind lookup succeed, `Notify.Execute`
returns the critical-notification error for `kind.ID` with an empty output exactly
when the kind is critical and no element of the token's scope list is
`critical_notifications.write`; errors of the registrar and of the strategy are
passed on unchanged, so these are taken not to be that same error. -/
theorem execute_critical_error_iff (handler : Notify)
    (newNotify : String → Except Error NotifyParams) (connection : Connection)
    (req : Request) (context : Context) (guid : String) (strategy : Strategy)
    (validator : Validator) (vcapRequestID : String)
    (parsed parameters : NotifyParams) (t : Time) (token : Token) (clientID : String)
    (scope : List String) (db : Database) (client : Client) (kind : Kind)
    (hParse : newNotify req.Body = .ok parsed)
    (hValid : validator.Validate parsed = (true, parameters))
    (hTime : context.Get RequestReceivedTime = .time t)
    (hToken : context.Get "token" = .token token)
    (hClient : token.Claims "client_id" = .str clientID)
    (hScope : token.Claims "scope" = .list (scope.map Elem.str))
    (hDb : context.Get "database" = .database db)
    (hFind : handler.finder.ClientAndKind db clientID parameters.KindID = .ok (client, kind))
    (hReg : handler.registrar.Register connection client [kind]
      ≠ some (.criticalNotification kind.ID))
    (hDisp : ∀ d, strategy.Dispatch d ≠ .error (.criticalNotification kind.ID)) :
    (handler.Execute newNotify connection req context guid strategy validator
        vcapRequestID).outcome = .ret "" (some (.criticalNotification kind.ID))
      ↔ (kind.Critical = true ∧ "critical_notifications.write" ∉ scope) := by
  simp only [Notify.Execute, hParse, hValid, hTime, hToken, hClient, hDb, hFind, hScope,
    hasCriticalNotificationsWriteScope, scanScope_strings]
  cases hc : kind.Critical
  · simp only [Bool.false_eq_true, if_false, false_and, iff_false]
    cases hr : handler.registrar.Register connection client [kind] with
    | some err =>
      simp only [Outcome.ret.injEq, true_and]
      intro h
      exact hReg (hr.trans h)
    | none =>
      simp only
      cases hd : strategy.Dispatch (dispatchOf guid connection parameters clientID client kind
          vcapRequestID t) with
      | error err =>
        simp only [Outcome.ret.injEq, true_and]
        intro h
        exact hDisp _ (hd.trans (by rw [Option.some.inj h]))
      | ok responses =>
        cases responses <;> simp [jsonMarshalResponses]
  · by_cases hm : "critical_notifications.write" ∈ scope
    · simp only [hm, if_true, Option.map_some', decide_True, Bool.not_true, true_and,
        not_true_eq_false, iff_false]
      cases hr : handler.registrar.Register connection client [kind] with
      | some err =>
        simp only [Outcome.ret.injEq, true_and]
        intro h
        exact hReg (hr.trans h)
      | none =>
        simp only
        cases hd : strategy.Dispatch (dispatchOf guid connection parameters clientID client
            kind vcapRequestID t) with
        | error err =>
          simp only [Outcome.ret.injEq, true_and]
          intro h
          exact hDisp _ (hd.trans (by rw [Option.some.inj h]))
        | ok responses =>
          cases responses <;> simp [jsonMarshalResponses]
    · simp [hm]

theorem execute_critical_error_iff_witness :
    (sampleRun true ["notifications.write"] none acceptAll).outcome
        = .ret "" (some (.criticalNotification (sampleKind true).ID))
      ↔ ((sampleKind true).Critical = true
          ∧ "critical_notifications.write" ∉ ["notifications.write"]) :=
  execute_critical_error_iff (sampleNotify true none) sampleNewNotify 7 sampleRequest
    (sampleContext ["notifications.write"]) "user-123" sampleStrategy acceptAll "vcap-1"
    sampleParams sampleParams 1400000000 (sampleToken ["notifications.write"])
    "notifications-sender" ["notifications.write"] { Connection := 7 } sampleClient
    (sampleKind true) rfl rfl rfl rfl rfl rfl rfl rfl (by decide)
    (by intro d; simp [sampleStrategy])

/-- The run of a request whose parsed parameters the validator rejects. -/
theorem execute_rejected_run (handler : Notify)
    (newNotify : String → Except Error NotifyParams) (connection : Connection)
    (req : Request) (context : Context) (guid : String) (strategy : Strategy)
    (validator : Validator) (vcapRequestID : String) (parsed parameters : NotifyParams)
    (hParse : newNotify req.Body = .ok parsed)
    (hRejected : validator.Validate parsed = (false, parameters)) :
    handler.Execute newNotify connection req context guid strategy validator vcapRequestID
      = ⟨.ret "" (some (.validation parameters.Errors)),
          [.newNotify req.Body, .validate parsed]⟩ := by
  simp only [Notify.Execute, hParse, hRejected, List.singleton_append]

/-- C2: when the validator rejects the parsed parameters, `Notify.Execute` returns an
empty output with the validation error built from the `Errors` the validator left in
the parameters; the only calls made are the parse and the validation, none goes to
the finder, the registrar or the strategy, and the run is the same whatever these
three are. -/
theorem execute_validation_rejected (handler other : Notify)
    (newNotify : String → Except Error NotifyParams) (connection : Connection)
    (req : Request) (context : Context) (guid : String) (strategy otherStrategy : Strategy)
    (validator : Validator) (vcapRequestID : String) (parsed parameters : NotifyParams)
    (hParse : newNotify req.Body = .ok parsed)
    (hRejected : validator.Validate parsed = (false, parameters)) :
    handler.Execute newNotify connection req context guid strategy validator vcapRequestID
        = ⟨.ret "" (some (.validation parameters.Errors)),
            [.newNotify req.Body, .validate parsed]⟩
      ∧ (∀ c ∈ (handler.Execute newNotify connection req context guid strategy validator
            vcapRequestID).calls, c.consults = false)
      ∧ other.Execute newNotify connection req context guid otherStrategy validator
            vcapRequestID
          = handler.Execute newNotify connection req context guid strategy validator
            vcapRequestID := by
  have h : ∀ (n : Notify) (st : Strategy),
      n.Execute newNotify connection req context guid st validator vcapRequestID
        = ⟨.ret "" (some (.validation parameters.Errors)),
            [.newNotify req.Body, .validate parsed]⟩ := fun n st =>
    execute_rejected_run n newNotify connection req context guid st validator vcapRequestID
      parsed parameters hParse hRejected
  refine ⟨h handler strategy, ?_, ?_⟩
  · rw [h handler strategy]
    intro c hc
    simp only [List.mem_cons, List.mem_singleton, List.not_mem_nil, or_false] at hc
    rcases hc with rfl | rfl <;> rfl
  · rw [h handler strategy, h other otherStrategy]

theorem execute_validation_rejected_witness :
    sampleRun true [] none (rejectAll ["boom"])
        = ⟨.ret "" (some (.validation ["boom"])),
            [.newNotify sampleRequest.Body, .validate sampleParams]⟩
      ∧ (∀ c ∈ (sampleRun true [] none (rejectAll ["boom"])).calls, c.consults = false)
      ∧ (sampleNotify false (some (.other "down"))).Execute sampleNewNotify 7 sampleRequest
            (sampleContext []) "user-123" { Dispatch := fun _ => .error (.other "no") }
            (rejectAll ["boom"]) "vcap-1"
          = sampleRun true [] none (rejectAll ["boom"]) :=
  execute_validation_rejected (sampleNotify true none) (sampleNotify false (some (.other "down")))
    sampleNewNotify 7 sampleRequest (sampleContext []) "user-123" sampleStrategy
    { Dispatch := fun _ => .error (.other "no") } (rejectAll ["boom"]) "vcap-1" sampleParams
    { sampleParams with Errors := ["boom"] } rfl rfl

/-- Every run that returns an error returns an empty output, and a run in which
`Dispatch` is called has passed every stage before it. -/
theorem execute_error_output_and_dispatch (handler : Notify)
    (newNotify : String → Except Error NotifyParams) (connection : Connection)
    (req : Request) (context : Context) (guid : String) (strategy : Strategy)
    (validator : Validator) (vcapRequestID : String) :
    (∀ output err, (handler.Execute newNotify connection req context guid strategy validator
        vcapRequestID).outcome = .ret output (some err) → output = "")
    ∧ (∀ d, Call.dispatch d ∈ (handler.Execute newNotify connection req context guid strategy
          validator vcapRequestID).calls →
        ∃ parsed parameters t token clientID db client kind,
          ReachesLookup newNotify validator req context parsed parameters t token clientID db
          ∧ handler.finder.ClientAndKind db clientID parameters.KindID = .ok (client, kind)
          ∧ (kind.Critical = true →
              hasCriticalNotificationsWriteScope (token.Claims "scope") = some true)
          ∧ handler.registrar.Register connection client [kind] = none
          ∧ d = dispatchOf guid connection parameters clientID client kind vcapRequestID t
          ∧ (handler.Execute newNotify connection req context guid strategy validator
              vcapRequestID).calls
            = [.newNotify req.Body, .validate parsed,
                .clientAndKind db clientID parameters.KindID,
                .register connection client [kind], .dispatch d]) := by
  cases h1 : newNotify req.Body with
  | error e => simp [Notify.Execute, h1]
  | ok parsed =>
  rcases h2 : validator.Validate parsed with ⟨v, parameters⟩
  cases v with
  | false => simp [Notify.Execute, h1, h2]
  | true =>
  cases h3 : context.Get RequestReceivedTime with
  | time t =>
    cases h4 : context.Get "token" with
    | token token =>
      cases h5 : token.Claims "client_id" with
      | str clientID =>
        cases h6 : context.Get "database" with
        | database db =>
          cases h7 : handler.finder.ClientAndKind db clientID parameters.KindID with
          | error e => simp [Notify.Execute, h1, h2, h3, h4, h5, h6, h7]
          | ok ck =>
            obtain ⟨client, kind⟩ := ck
            have later : ∀ (hpass : kind.Critical = true →
                hasCriticalNotificationsWriteScope (token.Claims "scope") = some true)
                (run : Run),
                run = (match handler.registrar.Register connection client [kind] with
                  | some err => (⟨.ret "" (some err), [.newNotify req.Body, .validate parsed,
                      .clientAndKind db clientID parameters.KindID,
                      .register connection client [kind]]⟩ : Run)
                  | none =>
                    match strategy.Dispatch (dispatchOf guid connection parameters clientID
                        client kind vcapRequestID t) with
                    | .error err => ⟨.ret "" (some err), [.newNotify req.Body, .validate parsed,
                        .clientAndKind db clientID parameters.KindID,
                        .register connection client [kind],
                        .dispatch (dispatchOf guid connection parameters clientID client kind
                          vcapRequestID t)]⟩
                    | .ok responses =>
                      match jsonMarshalResponses responses with
                      | .error err => ⟨.panicked (toString (repr err)), [.newNotify req.Body,
                          .validate parsed, .clientAndKind db clientID parameters.KindID,
                          .register connection client [kind],
                          .dispatch (dispatchOf guid connection parameters clientID client kind
                            vcapRequestID t)]⟩
                      | .ok output => ⟨.ret output none, [.newNotify req.Body,
                          .validate parsed, .clientAndKind db clientID parameters.KindID,
                          .register connection client [kind],
                          .dispatch (dispatchOf guid connection parameters clientID client kind
                            vcapRequestID t)]⟩) →
                (∀ output err, run.outcome = .ret output (some err) → output = "")
                ∧ (∀ d, Call.dispatch d ∈ run.calls →
                    ∃ parsed1 parameters1 t1 token1 clientID1 db1 client1 kind1,
                      ReachesLookup newNotify validator req context parsed1 parameters1 t1
                        token1 clientID1 db1
                      ∧ handler.finder.ClientAndKind db1 clientID1 parameters1.KindID
                          = .ok (client1, kind1)
                      ∧ (kind1.Critical = true →
                          hasCriticalNotificationsWriteScope (token1.Claims "scope") = some true)
                      ∧ handler.registrar.Register connection client1 [kind1] = none
                      ∧ d = dispatchOf guid connection parameters1 clientID1 client1 kind1
                          vcapRequestID t1
                      ∧ run.calls = [.newNotify req.Body, .validate parsed1,
                          .clientAndKind db1 clientID1 parameters1.KindID,
                          .register connection client1 [kind1], .dispatch d]) := by
              intro hpass run hrun
              cases hr : handler.registrar.Register connection client [kind] with
              | some err =>
                rw [hr] at hrun
                subst hrun
                simp
              | none =>
                rw [hr] at hrun
                have hreach : ReachesLookup newNotify validator req context parsed parameters t
                    token clientID db := ⟨h1, h2, h3, h4, h5, h6⟩
                cases hd : strategy.Dispatch (dispatchOf guid connection parameters clientID
                    client kind vcapRequestID t) with
                | error err =>
                  rw [hd] at hrun
                  subst hrun
                  refine ⟨by simp, ?_⟩
                  intro d hmem
                  have hdEq : d = dispatchOf guid connection parameters clientID client kind
                      vcapRequestID t := by simpa using hmem
                  subst hdEq
                  exact ⟨parsed, parameters, t, token, clientID, db, client, kind, hreach, h7,
                    hpass, hr, rfl, rfl⟩
                | ok responses =>
                  rw [hd] at hrun
                  cases responses with
                  | none =>
                    simp only [jsonMarshalResponses] at hrun
                    subst hrun
                    refine ⟨by simp, ?_⟩
                    intro d hmem
                    have hdEq : d = dispatchOf guid connection parameters clientID client kind
                        vcapRequestID t := by simpa using hmem
                    subst hdEq
                    exact ⟨parsed, parameters, t, token, clientID, db, client, kind, hreach,
                      h7, hpass, hr, rfl, rfl⟩
                  | some rs =>
                    simp only [jsonMarshalResponses] at hrun
                    subst hrun
                    refine ⟨by simp, ?_⟩
                    intro d hmem
                    have hdEq : d = dispatchOf guid connection parameters clientID client kind
                        vcapRequestID t := by simpa using hmem
                    subst hdEq
                    exact ⟨parsed, parameters, t, token, clientID, db, client, kind, hreach,
                      h7, hpass, hr, rfl, rfl⟩
            cases hc : kind.Critical with
            | false =>
              apply later (by simp [hc])
              simp [Notify.Execute, h1, h2, h3, h4, h5, h6, h7, hc]
            | true =>
              cases hs : hasCriticalNotificationsWriteScope (token.Claims "scope") with
              | none => simp [Notify.Execute, h1, h2, h3, h4, h5, h6, h7, hc, hs]
              | some b =>
                cases b with
                | false => simp [Notify.Execute, h1, h2, h3, h4, h5, h6, h7, hc, hs]
                | true =>
                  apply later (fun _ => hs)
                  simp [Notify.Execute, h1, h2, h3, h4, h5, h6, h7, hc, hs]
        | _ => simp [Notify.Execute, h1, h2, h3, h4, h5, h6]
      | _ => simp [Notify.Execute, h1, h2, h3, h4, h5]
    | _ => simp [Notify.Execute, h1, h2, h3, h4]
  | _ => simp [Notify.Execute, h1, h2, h3]

/-- C3: `Notify.Execute` runs parse, validate, client/kind lookup, critical-scope
check, Register and Dispatch in this order and stops at the first stage that fails:
a failing stage yields its own error unchanged with an empty output, the calls made
are those up to that stage, Register is not called when the critical-scope check
fails, and Dispatch is called only when every stage before it has succeeded. -/
theorem execute_stops_at_first_failure (handler : Notify)
    (newNotify : String → Except Error NotifyParams) (connection : Connection)
    (req : Request) (context : Context) (guid : String) (strategy : Strategy)
    (validator : Validator) (vcapRequestID : String) :
    (∀ output err, (handler.Execute newNotify connection req context guid strategy validator
        vcapRequestID).outcome = .ret output (some err) → output = "")
    ∧ (∀ err, newNotify req.Body = .error err →
        handler.Execute newNotify connection req context guid strategy validator vcapRequestID
          = ⟨.ret "" (some err), [.newNotify req.Body]⟩)
    ∧ (∀ parsed parameters, newNotify req.Body = .ok parsed →
        validator.Validate parsed = (false, parameters) →
        handler.Execute newNotify connection req context guid strategy validator vcapRequestID
          = ⟨.ret "" (some (.validation parameters.Errors)),
              [.newNotify req.Body, .validate parsed]⟩)
    ∧ (∀ parsed parameters t token clientID db err,
        ReachesLookup newNotify validator req context parsed parameters t token clientID db →
        handler.finder.ClientAndKind db clientID parameters.KindID = .error err →
        handler.Execute newNotify connection req context guid strategy validator vcapRequestID
          = ⟨.ret "" (some err), [.newNotify req.Body, .validate parsed,
              .clientAndKind db clientID parameters.KindID]⟩)
    ∧ (∀ parsed parameters t token clientID db client kind,
        ReachesLookup newNotify validator req context parsed parameters t token clientID db →
        handler.finder.ClientAndKind db clientID parameters.KindID = .ok (client, kind) →
        kind.Critical = true →
        hasCriticalNotificationsWriteScope (token.Claims "scope") = some false →
        handler.Execute newNotify connection req context guid strategy validator vcapRequestID
          = ⟨.ret "" (some (.criticalNotification kind.ID)), [.newNotify req.Body,
              .validate parsed, .clientAndKind db clientID parameters.KindID]⟩)
    ∧ (∀ parsed parameters t token clientID db client kind err,
        ReachesLookup newNotify validator req context parsed parameters t token clientID db →
        handler.finder.ClientAndKind db clientID parameters.KindID = .ok (client, kind) →
        (kind.Critical = true →
          hasCriticalNotificationsWriteScope (token.Claims "scope") = some true) →
        handler.registrar.Register connection client [kind] = some err →
        handler.Execute newNotify connection req context guid strategy validator vcapRequestID
          = ⟨.ret "" (some err), [.newNotify req.Body, .validate parsed,
              .clientAndKind db clientID parameters.KindID,
              .register connection client [kind]]⟩)
    ∧ (∀ d, Call.dispatch d ∈ (handler.Execute newNotify connection req context guid strategy
          validator vcapRequestID).calls →
        ∃ parsed parameters t token clientID db client kind,
          ReachesLookup newNotify validator req context parsed parameters t token clientID db
          ∧ handler.finder.ClientAndKind db clientID parameters.KindID = .ok (client, kind)
          ∧ (kind.Critical = true →
              hasCriticalNotificationsWriteScope (token.Claims "scope") = some true)
          ∧ handler.registrar.Register connection client [kind] = none
          ∧ d = dispatchOf guid connection parameters clientID client kind vcapRequestID t
          ∧ (handler.Execute newNotify connection req context guid strategy validator
              vcapRequestID).calls
            = [.newNotify req.Body, .validate parsed,
                .clientAndKind db clientID parameters.KindID,
                .register connection client [kind], .dispatch d]) := by
  refine ⟨(execute_error_output_and_dispatch handler newNotify connection req context guid
      strategy validator vcapRequestID).1, ?_, ?_, ?_, ?_, ?_,
    (execute_error_output_and_dispatch handler newNotify connection req context guid
      strategy validator vcapRequestID).2⟩
  · intro err h
    simp only [Notify.Execute, h]
  · intro parsed parameters h1 h2
    simp only [Notify.Execute, h1, h2, List.singleton_append]
  · rintro parsed parameters t token clientID db err ⟨h1, h2, h3, h4, h5, h6⟩ h7
    simp only [Notify.Execute, h1, h2, h3, h4, h5, h6, h7, List.singleton_append,
      List.cons_append, List.nil_append]
  · rintro parsed parameters t token clientID db client kind ⟨h1, h2, h3, h4, h5, h6⟩ h7 h8 h9
    simp only [Notify.Execute, h1, h2, h3, h4, h5, h6, h7, h8, h9, List.singleton_append,
      List.cons_append, List.nil_append, if_true, Option.map_some', Bool.not_false]
  · rintro parsed parameters t token clientID db client kind err ⟨h1, h2, h3, h4, h5, h6⟩
      h7 h8 h9
    cases hc : kind.Critical
    · simp only [Notify.Execute, h1, h2, h3, h4, h5, h6, h7, hc, h9, List.singleton_append,
        List.cons_append, List.nil_append, Bool.false_eq_true, if_false]
    · simp only [Notify.Execute, h1, h2, h3, h4, h5, h6, h7, hc, h8 hc, h9,
        List.singleton_append, List.cons_append, List.nil_append, if_true, Option.map_some',
        Bool.not_true]

theorem execute_stops_at_first_failure_witness :
    sampleRun true ["notifications.write"] none acceptAll
        = ⟨.ret "" (some (.criticalNotification "unsubscribe-acceptance-test")),
            [.newNotify sampleRequest.Body, .validate sampleParams,
              .clientAndKind { Connection := 7 } "notifications-sender"
                "unsubscribe-acceptance-test"]⟩
      ∧ sampleRun false [] (some (.other "database is down")) acceptAll
        = ⟨.ret "" (some (.other "database is down")),
            [.newNotify sampleRequest.Body, .validate sampleParams,
              .clientAndKind { Connection := 7 } "notifications-sender"
                "unsubscribe-acceptance-test",
              .register 7 sampleClient [sampleKind false]]⟩ :=
  ⟨(execute_stops_at_first_failure (sampleNotify true none) sampleNewNotify 7 sampleRequest
      (sampleContext ["notifications.write"]) "user-123" sampleStrategy acceptAll
      "vcap-1").2.2.2.2.1 sampleParams sampleParams 1400000000
      (sampleToken ["notifications.write"]) "notifications-sender" { Connection := 7 }
      sampleClient (sampleKind true) ⟨rfl, rfl, rfl, rfl, rfl, rfl⟩ rfl rfl rfl,
   (execute_stops_at_first_failure (sampleNotify false (some (.other "database is down")))
      sampleNewNotify 7 sampleRequest (sampleContext []) "user-123" sampleStrategy acceptAll
      "vcap-1").2.2.2.2.2.1 sampleParams sampleParams 1400000000 (sampleToken [])
      "notifications-sender" { Connection := 7 } sampleClient (sampleKind false)
      (.other "database is down") ⟨rfl, rfl, rfl, rfl, rfl, rfl⟩ rfl (by decide) rfl⟩

/-- C4: when every stage succeeds, `Notify.Execute` returns a nil error and, as output,
the JSON encoding of the very slice `strategy.Dispatch` returned: `null` for the nil
slice, else an array with one object per response, in the order of the slice, whose
members `recipient`, `status` and `notification_id` hold the three values of the
response, each written as a JSON string literal that reads back as the value. -/
theorem execute_success_output (handler : Notify)
    (newNotify : String → Except Error NotifyParams) (connection : Connection)
    (req : Request) (context : Context) (guid : String) (strategy : Strategy)
    (validator : Validator) (vcapRequestID : String)
    (parsed parameters : NotifyParams) (t : Time) (token : Token) (clientID : String)
    (db : Database) (client : Client) (kind : Kind) (responses : Option (List Response))
    (hReach : ReachesLookup newNotify validator req context parsed parameters t token
      clientID db)
    (hFind : handler.finder.ClientAndKind db clientID parameters.KindID = .ok (client, kind))
    (hScope : kind.Critical = true →
      hasCriticalNotificationsWriteScope (token.Claims "scope") = some true)
    (hRegister : handler.registrar.Register connection client [kind] = none)
    (hDispatch : strategy.Dispatch (dispatchOf guid connection parameters clientID client kind
      vcapRequestID t) = .ok responses) :
    handler.Execute newNotify connection req context guid strategy validator vcapRequestID
        = ⟨.ret (match responses with
                 | none => "null"
                 | some rs =>
                   "[" ++ ",".intercalate (rs.map fun r =>
                     "\x7b\"recipient\":" ++ jsonString r.Recipient
                       ++ ",\"status\":" ++ jsonString r.Status
                       ++ ",\"notification_id\":" ++ jsonString r.NotificationID ++ "\x7d")
                     ++ "]") none,
            [.newNotify req.Body, .validate parsed,
              .clientAndKind db clientID parameters.KindID,
              .register connection client [kind],
              .dispatch (dispatchOf guid connection parameters clientID client kind
                vcapRequestID t)]⟩
      ∧ ∀ rs, responses = some rs → ∀ r ∈ rs,
          jsonUnquote (jsonString r.Recipient) = some r.Recipient
            ∧ jsonUnquote (jsonString r.Status) = some r.Status
            ∧ jsonUnquote (jsonString r.NotificationID) = some r.NotificationID := by
  obtain ⟨h1, h2, h3, h4, h5, h6⟩ := hReach
  have hmap : ∀ rs : List Response, rs.map jsonResponse = rs.map fun r =>
      "\x7b\"recipient\":" ++ jsonString r.Recipient ++ ",\"status\":" ++ jsonString r.Status
        ++ ",\"notification_id\":" ++ jsonString r.NotificationID ++ "\x7d" := by
    intro rs
    exact List.map_congr_left fun r _ => jsonResponse_eq r
  refine ⟨?_, fun rs _ r _ =>
    ⟨jsonUnquote_jsonString _, jsonUnquote_jsonString _, jsonUnquote_jsonString _⟩⟩
  cases hc : kind.Critical
  · cases responses <;>
      simp [Notify.Execute, h1, h2, h3, h4, h5, h6, hFind, hc, hRegister, hDispatch,
        jsonMarshalResponses, hmap]
  · cases responses <;>
      simp [Notify.Execute, h1, h2, h3, h4, h5, h6, hFind, hc, hScope hc, hRegister,
        hDispatch, jsonMarshalResponses, hmap]

theorem execute_success_output_witness :
    ((sampleNotify false none).Execute sampleNewNotify 7 sampleRequest
        (sampleContext ["notifications.write"]) "user-123" sampleEscapedStrategy acceptAll
        "vcap-1").outcome
        = .ret "[\x7b\"recipient\":\"user-123\",\"status\":\"queued\",\"notification_id\":\"abc-1\"\x7d,\x7b\"recipient\":\"a\\\"b\\\\c\\u003cd\\u003e\\u0026e\\nf\",\"status\":\"queued\",\"notification_id\":\"x\\u0001y\"\x7d]"
            none
      ∧ jsonUnquote "\"a\\\"b\\\\c\\u003cd\\u003e\\u0026e\\nf\"" = some "a\"b\\c<d>&e\nf" :=
  ⟨congrArg Run.outcome
      (execute_success_output (sampleNotify false none) sampleNewNotify 7 sampleRequest
        (sampleContext ["notifications.write"]) "user-123" sampleEscapedStrategy acceptAll
        "vcap-1" sampleParams sampleParams 1400000000 (sampleToken ["notifications.write"])
        "notifications-sender" { Connection := 7 } sampleClient (sampleKind false)
        (some sampleEscapedResponses) ⟨rfl, rfl, rfl, rfl, rfl, rfl⟩ rfl (by decide) rfl
        rfl).1,
    ((execute_success_output (sampleNotify false none) sampleNewNotify 7 sampleRequest
        (sampleContext ["notifications.write"]) "user-123" sampleEscapedStrategy acceptAll
        "vcap-1" sampleParams sampleParams 1400000000 (sampleToken ["notifications.write"])
        "notifications-sender" { Connection := 7 } sampleClient (sampleKind false)
        (some sampleEscapedResponses) ⟨rfl, rfl, rfl, rfl, rfl, rfl⟩ rfl (by decide) rfl
        rfl).2 sampleEscapedResponses rfl
        { Recipient := "a\"b\\c<d>&e\nf", Status := "queued", NotificationID := "x\x01y" }
        (by simp [sampleEscapedResponses])).1⟩

/-- C5, as the claim states it, fails: for a critical kind and a token whose scope is
only `notifications.write`, `Notify.Execute` returns the critical-notification error
and neither `Register` nor `Dispatch` is called. -/
theorem execute_critical_without_scope_example :
    (sampleKind true).Critical = true
      ∧ "critical_notifications.write" ∉ ["notifications.write"]
      ∧ (sampleRun true ["notifications.write"] none acceptAll).outcome
          = .ret "" (some (.criticalNotification "unsubscribe-acceptance-test"))
      ∧ ∀ d, Call.dispatch d ∉ (sampleRun true ["notifications.write"] none acceptAll).calls := by
  have h : sampleRun true ["notifications.write"] none acceptAll
      = ⟨.ret "" (some (.criticalNotification "unsubscribe-acceptance-test")),
          [.newNotify sampleRequest.Body, .validate sampleParams,
            .clientAndKind { Connection := 7 } "notifications-sender"
              "unsubscribe-acceptance-test"]⟩ := rfl
  refine ⟨rfl, by decide, ?_, ?_⟩
  · rw [h]
  · intro d
    rw [h]
    simp

/-- C5, amended: a notify request for a critical kind whose token's scope list lacks
`critical_notifications.write` is rejected by `Notify.Execute` with the
critical-notification error for the kind and an empty output, right after the
client/kind lookup: neither `Register` nor `Dispatch` is called. -/
theorem execute_critical_without_scope_rejected (handler : Notify)
    (newNotify : String → Except Error NotifyParams) (connection : Connection)
    (req : Request) (context : Context) (guid : String) (strategy : Strategy)
    (validator : Validator) (vcapRequestID : String)
    (parsed parameters : NotifyParams) (t : Time) (token : Token) (clientID : String)
    (scope : List String) (db : Database) (client : Client) (kind : Kind)
    (hReach : ReachesLookup newNotify validator req context parsed parameters t token
      clientID db)
    (hFind : handler.finder.ClientAndKind db clientID parameters.KindID = .ok (client, kind))
    (hCritical : kind.Critical = true)
    (hScope : token.Claims "scope" = .list (scope.map Elem.str))
    (hNone : "critical_notifications.write" ∉ scope) :
    handler.Execute newNotify connection req context guid strategy validator vcapRequestID
        = ⟨.ret "" (some (.criticalNotification kind.ID)),
            [.newNotify req.Body, .validate parsed,
              .clientAndKind db clientID parameters.KindID]⟩
      ∧ (∀ conn cl kinds, Call.register conn cl kinds ∉ (handler.Execute newNotify connection
          req context guid strategy validator vcapRequestID).calls)
      ∧ (∀ d, Call.dispatch d ∉ (handler.Execute newNotify connection req context guid
          strategy validator vcapRequestID).calls) := by
  obtain ⟨h1, h2, h3, h4, h5, h6⟩ := hReach
  have h : handler.Execute newNotify connection req context guid strategy validator
      vcapRequestID = ⟨.ret "" (some (.criticalNotification kind.ID)),
        [.newNotify req.Body, .validate parsed,
          .clientAndKind db clientID parameters.KindID]⟩ := by
    simp [Notify.Execute, h1, h2, h3, h4, h5, h6, hFind, hCritical, hScope,
      hasCriticalNotificationsWriteScope, scanScope_strings, hNone]
  rw [h]
  simp

theorem execute_critical_without_scope_rejected_witness :
    sampleRun true ["notifications.write"] none acceptAll
        = ⟨.ret "" (some (.criticalNotification (sampleKind true).ID)),
            [.newNotify sampleRequest.Body, .validate sampleParams,
              .clientAndKind { Connection := 7 } "notifications-sender" sampleParams.KindID]⟩
      ∧ (∀ conn cl kinds, Call.register conn cl kinds
          ∉ (sampleRun true ["notifications.write"] none acceptAll).calls)
      ∧ (∀ d, Call.dispatch d ∉ (sampleRun true ["notifications.write"] none acceptAll).calls) :=
  execute_critical_without_scope_rejected (sampleNotify true none) sampleNewNotify 7
    sampleRequest (sampleContext ["notifications.write"]) "user-123" sampleStrategy acceptAll
    "vcap-1" sampleParams sampleParams 1400000000 (sampleToken ["notifications.write"])
    "notifications-sender" ["notifications.write"] { Connection := 7 } sampleClient
    (sampleKind true) ⟨rfl, rfl, rfl, rfl, rfl, rfl⟩ rfl rfl rfl (by decide)

/-! ## Theorems on the role validation -/

/-- C6: for an organization target the role validation succeeds exactly when the role
is `OrgManager`, `OrgAuditor`, `BillingManager` or unset (empty); for every other role
`Notify.Execute` rejects the request with the validation error holding the one message
`"role" must be "OrgManager", "OrgAuditor", "BillingManager" or unset`, and `Dispatch`
is not called. -/
theorem organization_role_validation (handler : Notify)
    (newNotify : String → Except Error NotifyParams) (connection : Connection)
    (req : Request) (context : Context) (guid : String) (strategy : Strategy)
    (vcapRequestID : String) (parsed : NotifyParams)
    (hParse : newNotify req.Body = .ok parsed) :
    ((organizationValidator.Validate parsed).1 = true
        ↔ (parsed.Role = "OrgManager" ∨ parsed.Role = "OrgAuditor"
            ∨ parsed.Role = "BillingManager" ∨ parsed.Role = ""))
      ∧ (¬ (parsed.Role = "OrgManager" ∨ parsed.Role = "OrgAuditor"
            ∨ parsed.Role = "BillingManager" ∨ parsed.Role = "") →
          (handler.Execute newNotify connection req context guid strategy
              organizationValidator vcapRequestID).outcome
            = .ret "" (some (.validation
                ["\"role\" must be \"OrgManager\", \"OrgAuditor\", \"BillingManager\" or unset"]))
          ∧ ∀ d, Call.dispatch d ∉ (handler.Execute newNotify connection req context guid
              strategy organizationValidator vcapRequestID).calls) := by
  have hiff : (roleErrors parsed.Role).isEmpty = true
      ↔ (parsed.Role = "OrgManager" ∨ parsed.Role = "OrgAuditor"
          ∨ parsed.Role = "BillingManager" ∨ parsed.Role = "") := by
    unfold roleErrors validOrganizationRoles
    by_cases h : parsed.Role = "" ∨ parsed.Role ∈ ["OrgManager", "OrgAuditor", "BillingManager"]
    · rw [if_pos h]
      simp only [List.mem_cons, List.mem_singleton, List.not_mem_nil, or_false] at h
      simp only [List.isEmpty_nil, true_iff]
      tauto
    · rw [if_neg h]
      simp only [List.mem_cons, List.mem_singleton, List.not_mem_nil, or_false] at h
      simp only [List.isEmpty_cons, Bool.false_eq_true, false_iff]
      tauto
  refine ⟨hiff, ?_⟩
  intro hbad
  have hv : organizationValidator.Validate parsed
      = (false, { parsed with Errors := [invalidRoleMessage] }) := by
    have hne : ¬ (parsed.Role = "" ∨ parsed.Role ∈ validOrganizationRoles) := by
      unfold validOrganizationRoles
      simp only [List.mem_cons, List.mem_singleton, List.not_mem_nil, or_false]
      tauto
    simp only [organizationValidator, roleErrors, if_neg hne, List.isEmpty_cons]
  have hrun := execute_rejected_run handler newNotify connection req context guid strategy
    organizationValidator vcapRequestID parsed _ hParse hv
  rw [hrun]
  refine ⟨rfl, ?_⟩
  intro d
  simp

theorem organization_role_validation_witness :
    ((organizationValidator.Validate
          { sampleParams with KindID := "organization-role-test", Role := "bad-role" }).1 = true
        ↔ ("bad-role" = "OrgManager" ∨ "bad-role" = "OrgAuditor"
            ∨ "bad-role" = "BillingManager" ∨ "bad-role" = ""))
      ∧ (¬ ("bad-role" = "OrgManager" ∨ "bad-role" = "OrgAuditor"
            ∨ "bad-role" = "BillingManager" ∨ "bad-role" = "") →
          ((sampleNotify false none).Execute (sampleNewNotifyRole "bad-role") 7 sampleRequest
              (sampleContext []) "org-123" sampleStrategy organizationValidator
              "vcap-1").outcome
            = .ret "" (some (.validation
                ["\"role\" must be \"OrgManager\", \"OrgAuditor\", \"BillingManager\" or unset"]))
          ∧ ∀ d, Call.dispatch d ∉ ((sampleNotify false none).Execute
              (sampleNewNotifyRole "bad-role") 7 sampleRequest (sampleContext []) "org-123"
              sampleStrategy organizationValidator "vcap-1").calls) :=
  organization_role_validation (sampleNotify false none) (sampleNewNotifyRole "bad-role") 7
    sampleRequest (sampleContext []) "org-123" sampleStrategy "vcap-1"
    { sampleParams with KindID := "organization-role-test", Role := "bad-role" } rfl

/-! ## Theorems on `NotifyUser.ServeHTTP` -/

theorem trimPrefix_append (pre rest : String) : TrimPrefix (pre ++ rest) pre = rest := by
  have h : HasPrefix (pre ++ rest) pre = true := by
    simp [HasPrefix, String.data_append]
  simp [TrimPrefix, h, String.data_append]

/-- C7: `NotifyUser.ServeHTTP` hands the notify helper the loader `loadUsers`, and this
loader returns, for every user GUID and every access token, a list of exactly one user,
whose `Guid` is the GUID it was called with, and no error. -/
theorem serveHTTP_loader_returns_one_user (w : ResponseWriter) (req : Request)
    (userGuid accessToken : String) :
    (NotifyUser.ServeHTTP ⟨recordingHelper⟩ w req).loadUsers userGuid accessToken
        = ([{ Guid := userGuid }], none)
      ∧ ((NotifyUser.ServeHTTP ⟨recordingHelper⟩ w req).loadUsers userGuid accessToken).1.length
          = 1
      ∧ ∀ (ρ : Type) (handler : NotifyUser ρ),
          NotifyUser.ServeHTTP handler w req
            = handler.helper.NotifyServeHTTP w req
                (NotifyUser.ServeHTTP ⟨recordingHelper⟩ w req).guid
                (NotifyUser.ServeHTTP ⟨recordingHelper⟩ w req).loadUsers
                (NotifyUser.ServeHTTP ⟨recordingHelper⟩ w req).loadSpaceAndOrganization :=
  ⟨rfl, rfl, fun _ _ => rfl⟩

/-- C8: for a request whose URL path is `/users/` followed by a string `g`,
`NotifyUser.ServeHTTP` calls the notify helper with exactly `g` as the recipient GUID
(with the writer and request it got, the one-user loader and the space flag off). -/
theorem serveHTTP_passes_guid {ρ : Type} (handler : NotifyUser ρ) (w : ResponseWriter)
    (req : Request) (g : String) (hPath : req.Path = "/users/" ++ g) :
    NotifyUser.ServeHTTP handler w req
      = handler.helper.NotifyServeHTTP w req g NotifyUser.loadUsers false := by
  simp only [NotifyUser.ServeHTTP, hPath, trimPrefix_append]

theorem serveHTTP_passes_guid_witness :
    (NotifyUser.ServeHTTP ⟨recordingHelper⟩ ⟨0, ""⟩ sampleRequest).guid = "user-123" :=
  congrArg HelperCall.guid
    (serveHTTP_passes_guid ⟨recordingHelper⟩ ⟨0, ""⟩ sampleRequest "user-123" rfl)

/-! ## Theorems on `CreateHandler.ServeHTTP` -/

/-- C9: when the body decodes to a non-empty name, the context holds a non-empty string
as client id and `Set` succeeds, `CreateHandler.ServeHTTP` answers with status 201 and
the JSON object `{"id":…,"name":…}` with exactly the members `id` and `name`, whose
values are the `ID` and the `Name` of the sender `Set` returned, each written as a JSON
string literal that reads back as the value. -/
theorem create_sender_response (h : CreateHandler) (decode : String → Except Error String)
    (w : ResponseWriter) (req : Request) (context : Context) (name client : String)
    (database : Database) (sender : Sender)
    (hFresh : w.Code = 0)
    (hDecode : decode req.Body = .ok name) (hName : name ≠ "")
    (hDatabase : context.Get "database" = .database database)
    (hClient : context.Get "client_id" = .str client) (hClientID : client ≠ "")
    (hSet : h.senders.Set database.Connection { ID := "", Name := name, ClientID := client }
      = .ok sender) :
    (h.ServeHTTP decode w req context).response
        = some { Code := 201
                 Body := w.Body ++ ("\x7b\"id\":" ++ jsonString sender.ID ++ ",\"name\":"
                   ++ jsonString sender.Name ++ "\x7d") }
      ∧ jsonUnquote (jsonString sender.ID) = some sender.ID
      ∧ jsonUnquote (jsonString sender.Name) = some sender.Name := by
  refine ⟨?_, jsonUnquote_jsonString _, jsonUnquote_jsonString _⟩
  simp [CreateHandler.ServeHTTP, hDecode, hName, hDatabase, hClient, hClientID, hSet,
    CtxValue.isEmptyString, ResponseWriter.WriteHeader, ResponseWriter.Write, hFresh,
    jsonMarshalSender_eq]

theorem create_sender_response_witness :
    ((CreateHandler.mk sampleEscapedSenders).ServeHTTP sampleDecode ⟨0, ""⟩
        sampleCreateRequest (sampleCreateContext "my-client")).response
        = some { Code := 201
                 Body := "\x7b\"id\":\"sender-1\",\"name\":\"my \\\"best\\\" \\u003csender\\u003e\"\x7d" }
      ∧ jsonUnquote "\"sender-1\"" = some "sender-1"
      ∧ jsonUnquote "\"my \\\"best\\\" \\u003csender\\u003e\"" = some "my \"best\" <sender>" :=
  create_sender_response (CreateHandler.mk sampleEscapedSenders) sampleDecode ⟨0, ""⟩
    sampleCreateRequest (sampleCreateContext "my-client") "my-sender" "my-client"
    { Connection := 7 }
    { ID := "sender-1", Name := "my \"best\" <sender>", ClientID := "my-client" }
    rfl rfl (by decide) rfl rfl (by decide) rfl

/-- C10: on the success path of `CreateHandler.ServeHTTP`, `Set` is called exactly once,
on the connection of the database in the context, with `Name` the name of the request
body and `ClientID` the client id held in the request context. -/
theorem create_sender_set_once (h : CreateHandler) (decode : String → Except Error String)
    (w : ResponseWriter) (req : Request) (context : Context) (name client : String)
    (database : Database) (sender : Sender)
    (hDecode : decode req.Body = .ok name) (hName : name ≠ "")
    (hDatabase : context.Get "database" = .database database)
    (hClient : context.Get "client_id" = .str client) (hClientID : client ≠ "")
    (hSet : h.senders.Set database.Connection { ID := "", Name := name, ClientID := client }
      = .ok sender) :
    (h.ServeHTTP decode w req context).calls
        = [{ conn := database.Connection
             sender := { ID := "", Name := name, ClientID := client } }]
      ∧ (h.ServeHTTP decode w req context).calls.length = 1
      ∧ ∀ c ∈ (h.ServeHTTP decode w req context).calls,
          c.sender.Name = name ∧ c.sender.ClientID = client := by
  have hc : (h.ServeHTTP decode w req context).calls
      = [{ conn := database.Connection
           sender := { ID := "", Name := name, ClientID := client } }] := by
    simp [CreateHandler.ServeHTTP, hDecode, hName, hDatabase, hClient, hClientID, hSet,
      CtxValue.isEmptyString]
  rw [hc]
  simp

theorem create_sender_set_once_witness :
    ((CreateHandler.mk sampleSenders).ServeHTTP sampleDecode ⟨0, ""⟩ sampleCreateRequest
        (sampleCreateContext "my-client")).calls
        = [{ conn := 7, sender := { ID := "", Name := "my-sender", ClientID := "my-client" } }]
      ∧ ((CreateHandler.mk sampleSenders).ServeHTTP sampleDecode ⟨0, ""⟩ sampleCreateRequest
          (sampleCreateContext "my-client")).calls.length = 1
      ∧ ∀ c ∈ ((CreateHandler.mk sampleSenders).ServeHTTP sampleDecode ⟨0, ""⟩
          sampleCreateRequest (sampleCreateContext "my-client")).calls,
          c.sender.Name = "my-sender" ∧ c.sender.ClientID = "my-client" :=
  create_sender_set_once (CreateHandler.mk sampleSenders) sampleDecode ⟨0, ""⟩
    sampleCreateRequest (sampleCreateContext "my-client") "my-sender" "my-client"
    { Connection := 7 } { ID := "sender-1", Name := "my-sender", ClientID := "my-client" }
    rfl (by decide) rfl rfl (by decide) rfl

/-! ## Theorems on the preference gate -/

/-- C11: the preference gate allows a recipient for a kind exactly when the store has
no row for (client id, kind id, user id), or the row of this key has the email flag on
and the global-unsubscribe flag off; the gate leaves the store as it found it. -/
theorem allow_iff_no_row_or_enabled (store : PreferenceStore) (recipient : Recipient)
    (kind : Kind) (clientID : String) :
    ((Allow store recipient kind clientID).1 = true
        ↔ ((∀ p ∈ store, p.hasKey clientID kind.ID recipient.Identifier = false)
            ∨ ∃ row, store.Get clientID kind.ID recipient.Identifier = some row
                ∧ row.Email = true ∧ row.GlobalUnsubscribe = false))
      ∧ (Allow store recipient kind clientID).2 = store := by
  unfold Allow
  cases hrow : store.Get clientID kind.ID recipient.Identifier with
  | none =>
    refine ⟨?_, rfl⟩
    simp only [true_iff]
    left
    intro p hp
    have h := List.find?_eq_none.mp hrow p hp
    simpa using h
  | some row =>
    refine ⟨?_, rfl⟩
    constructor
    · intro h
      right
      refine ⟨row, rfl, ?_⟩
      simpa using h
    · rintro (h | ⟨r, hr, he, hg⟩)
      · have hmem := List.mem_of_find?_eq_some hrow
        have hkey := List.find?_some hrow
        rw [h row hmem] at hkey
        exact absurd hkey (by decide)
      · cases hr
        simp [he, hg]

/-! ## Theorems on `SpaceLoader.Load` -/

theorem failure_error_404 (message : String) :
    (LoadError.Failure 404 message).Error = "CloudController Failure (404): " ++ message := by
  simp only [LoadError.Error]
  rfl

/-- C14: for a space guid the cloud controller knows, whose organization it knows as
well, `SpaceLoader.Load(guid, token, IsSpace)` returns the name of the space, the name
of the organization of the space's `OrganizationGuid`, and no error. -/
theorem load_space_returns_names (loader : SpaceLoader) (guid token : String)
    (space : CloudControllerSpace) (org : CloudControllerOrganization)
    (hSpace : loader.cloudController.LoadSpace guid token = .ok space)
    (hOrg : loader.cloudController.LoadOrganization space.OrganizationGuid token = .ok org) :
    loader.Load guid token .IsSpace = (space.Name, org.Name, none) := by
  simp only [SpaceLoader.Load, hSpace, hOrg]

theorem load_space_returns_names_witness :
    (SpaceLoader.mk (sampleCloudController true none none)).Load "space-001" "token" .IsSpace
      = ("space-name", "org-name", none) :=
  load_space_returns_names (SpaceLoader.mk (sampleCloudController true none none)) "space-001"
    "token" { Guid := "space-001", Name := "space-name", OrganizationGuid := "org-001" }
    { Guid := "org-001", Name := "org-name" } rfl rfl

/-- C15: `SpaceLoader.Load` with `IsSpace` returns a `CCNotFoundError` whose message is
`CloudController Error: ` followed by the text of the upstream 404 failure, both when
the space lookup fails with 404 and when the space is found but the lookup of its
organization fails with 404; in both cases the names returned are empty and the error
is not nil. -/
theorem load_space_not_found (loader : SpaceLoader) (guid token : String) :
    (∀ message, loader.cloudController.LoadSpace guid token = .error (.Failure 404 message) →
        loader.Load guid token .IsSpace
          = ("", "", some (.CCNotFoundError
              ("CloudController Error: CloudController Failure (404): " ++ message))))
      ∧ (∀ space message, loader.cloudController.LoadSpace guid token = .ok space →
          loader.cloudController.LoadOrganization space.OrganizationGuid token
            = .error (.Failure 404 message) →
          loader.Load guid token .IsSpace
            = ("", "", some (.CCNotFoundError
                ("CloudController Error: CloudController Failure (404): " ++ message)))) := by
  have hcat : ∀ m : String,
      "CloudController Error: " ++ ("CloudController Failure (404): " ++ m)
        = "CloudController Error: CloudController Failure (404): " ++ m := by
    intro m
    rw [← String.append_assoc]
    rfl
  constructor
  · intro message h
    simp only [SpaceLoader.Load, h, classifyError, if_true, failure_error_404, hcat]
  · intro space message h1 h2
    simp only [SpaceLoader.Load, h1, h2, classifyError, if_true, failure_error_404, hcat]

theorem load_space_not_found_witness :
    (SpaceLoader.mk (sampleCloudController true none none)).Load "space-doesnotexist" "token"
        .IsSpace
      = ("", "", some (.CCNotFoundError ("CloudController Error: CloudController Failure (404): "
          ++ ("\x7b\"code\":40004,\"description\":\"The app space could not be found: "
            ++ "space-doesnotexist" ++ "\",\"error_code\":\"CF-SpaceNotFound\"\x7d"))))
    ∧ (SpaceLoader.mk (sampleCloudController false none none)).Load "space-001" "token" .IsSpace
      = ("", "", some (.CCNotFoundError ("CloudController Error: CloudController Failure (404): "
          ++ ("\x7b\"code\":30003,\"description\":\"The organization could not be found: "
            ++ "org-001" ++ "\",\"error_code\":\"CF-OrganizationNotFound\"\x7d")))) :=
  ⟨(load_space_not_found (SpaceLoader.mk (sampleCloudController true none none))
      "space-doesnotexist" "token").1 _ rfl,
   (load_space_not_found (SpaceLoader.mk (sampleCloudController false none none))
      "space-001" "token").2
      { Guid := "space-001", Name := "space-name", OrganizationGuid := "org-001" } _ rfl rfl⟩

/-- C16: in `SpaceLoader.Load`, for the space lookup and for the organization lookup
alike, an upstream `cf.Failure` whose status is not 404 is returned as
`CCDownError("CloudController is unavailable")`, and an upstream error that is not a
`cf.Failure` is returned unchanged. -/
theorem load_space_other_errors (loader : SpaceLoader) (guid token : String) :
    (∀ code message, code ≠ 404 →
        loader.cloudController.LoadSpace guid token = .error (.Failure code message) →
        loader.Load guid token .IsSpace
          = ("", "", some (.CCDownError "CloudController is unavailable")))
      ∧ (∀ err, (∀ code message, err ≠ .Failure code message) →
          loader.cloudController.LoadSpace guid token = .error err →
          loader.Load guid token .IsSpace = ("", "", some err))
      ∧ (∀ space code message, code ≠ 404 →
          loader.cloudController.LoadSpace guid token = .ok space →
          loader.cloudController.LoadOrganization space.OrganizationGuid token
            = .error (.Failure code message) →
          loader.Load guid token .IsSpace
            = ("", "", some (.CCDownError "CloudController is unavailable")))
      ∧ (∀ space err, (∀ code message, err ≠ .Failure code message) →
          loader.cloudController.LoadSpace guid token = .ok space →
          loader.cloudController.LoadOrganization space.OrganizationGuid token = .error err →
          loader.Load guid token .IsSpace = ("", "", some err)) := by
  have hpass : ∀ err : LoadError, (∀ code message, err ≠ .Failure code message) →
      classifyError err = err := by
    intro err h
    cases err with
    | Failure code message => exact absurd rfl (h code message)
    | CCNotFoundError _ => rfl
    | CCDownError _ => rfl
    | other _ => rfl
  refine ⟨?_, ?_, ?_, ?_⟩
  · intro code message hc h
    simp only [SpaceLoader.Load, h, classifyError, if_neg hc]
  · intro err hne h
    simp only [SpaceLoader.Load, h, hpass err hne]
  · intro space code message hc h1 h2
    simp only [SpaceLoader.Load, h1, h2, classifyError, if_neg hc]
  · intro space err hne h1 h2
    simp only [SpaceLoader.Load, h1, h2, hpass err hne]

theorem load_space_other_errors_witness :
    (SpaceLoader.mk (sampleCloudController true (some (.Failure 401 "BOOM!")) none)).Load
        "space-001" "token" .IsSpace
      = ("", "", some (.CCDownError "CloudController is unavailable"))
    ∧ (SpaceLoader.mk (sampleCloudController true (some (.other "BOOM!")) none)).Load
        "space-001" "token" .IsSpace = ("", "", some (.other "BOOM!"))
    ∧ (SpaceLoader.mk (sampleCloudController true none (some (.Failure 401 "BOOM!")))).Load
        "space-001" "token" .IsSpace
      = ("", "", some (.CCDownError "CloudController is unavailable"))
    ∧ (SpaceLoader.mk (sampleCloudController true none (some (.other "BOOM!")))).Load
        "space-001" "token" .IsSpace = ("", "", some (.other "BOOM!")) :=
  ⟨(load_space_other_errors (SpaceLoader.mk (sampleCloudController true
      (some (.Failure 401 "BOOM!")) none)) "space-001" "token").1 401 "BOOM!" (by decide) rfl,
   (load_space_other_errors (SpaceLoader.mk (sampleCloudController true
      (some (.other "BOOM!")) none)) "space-001" "token").2.1 (.other "BOOM!")
      (fun _ _ h => LoadError.noConfusion h) rfl,
   (load_space_other_errors (SpaceLoader.mk (sampleCloudController true none
      (some (.Failure 401 "BOOM!")))) "space-001" "token").2.2.1
      { Guid := "space-001", Name := "space-name", OrganizationGuid := "org-001" } 401 "BOOM!"
      (by decide) rfl rfl,
   (load_space_other_errors (SpaceLoader.mk (sampleCloudController true none
      (some (.other "BOOM!")))) "space-001" "token").2.2.2
      { Guid := "space-001", Name := "space-name", OrganizationGuid := "org-001" }
      (.other "BOOM!") (fun _ _ h => LoadError.noConfusion h) rfl rfl⟩

/-- C17: for a user target nothing is loaded: `SpaceLoader.Load(guid, token, IsUser)`
returns the empty space name, the empty organization name and a nil error for every
guid, token and cloud controller, and `NotifyUser.ServeHTTP` always calls the helper
with the flag to load space and organization off. -/
theorem load_user_loads_nothing (loader : SpaceLoader) (guid token : String)
    (w : ResponseWriter) (req : Request) :
    loader.Load guid token .IsUser = ("", "", none)
      ∧ (NotifyUser.ServeHTTP ⟨recordingHelper⟩ w req).loadSpaceAndOrganization = false
      ∧ ∀ (ρ : Type) (handler : NotifyUser ρ),
          NotifyUser.ServeHTTP handler w req
            = handler.helper.NotifyServeHTTP w req (TrimPrefix req.Path "/users/")
                NotifyUser.loadUsers false :=
  ⟨rfl, rfl, fun _ _ => rfl⟩

/-! ## Further theorems on `Notify.Execute` -/

/-- C25: when `Notify.Execute` reaches `Dispatch`, the request it hands over copies its
inputs: `GUID` is the guid argument; `Role`, `To`, `ReplyTo`, `Subject`, `Text` and the
four parts of the parsed HTML come from the parameters; `Client.ID` is the `client_id`
claim of the token; `Client.Description` and `Kind.Description` come from the client
and kind looked up; `Kind.ID` is the kind id of the parameters; the VCAP request holds
the `vcapRequestID` argument and the receipt time of the context. -/
theorem execute_dispatch_request (handler : Notify)
    (newNotify : String → Except Error NotifyParams) (connection : Connection)
    (req : Request) (context : Context) (guid : String) (strategy : Strategy)
    (validator : Validator) (vcapRequestID : String)
    (parsed parameters : NotifyParams) (t : Time) (token : Token) (clientID : String)
    (db : Database) (client : Client) (kind : Kind)
    (hReach : ReachesLookup newNotify validator req context parsed parameters t token
      clientID db)
    (hFind : handler.finder.ClientAndKind db clientID parameters.KindID = .ok (client, kind))
    (hScope : kind.Critical = true →
      hasCriticalNotificationsWriteScope (token.Claims "scope") = some true)
    (hRegister : handler.registrar.Register connection client [kind] = none) :
    (handler.Execute newNotify connection req context guid strategy validator
        vcapRequestID).calls
      = [.newNotify req.Body, .validate parsed,
          .clientAndKind db clientID parameters.KindID,
          .register connection client [kind],
          .dispatch
            { GUID := guid
              Connection := connection
              Role := parameters.Role
              Client := { ID := clientID, Description := client.Description }
              Kind := { ID := parameters.KindID, Description := kind.Description }
              VCAPRequest := { ID := vcapRequestID, ReceiptTime := t }
              Message :=
                { To := parameters.To
                  ReplyTo := parameters.ReplyTo
                  Subject := parameters.Subject
                  Text := parameters.Text
                  HTML :=
                    { BodyContent := parameters.ParsedHTML.BodyContent
                      BodyAttributes := parameters.ParsedHTML.BodyAttributes
                      Head := parameters.ParsedHTML.Head
                      Doctype := parameters.ParsedHTML.Doctype } } }] := by
  obtain ⟨h1, h2, h3, h4, h5, h6⟩ := hReach
  have hrej : (if kind.Critical = true then
      Option.map (fun b => !b) (hasCriticalNotificationsWriteScope (token.Claims "scope"))
      else some false) = some false := by
    cases hc : kind.Critical
    · simp
    · simp [hScope hc]
  simp only [Notify.Execute, h1, h2, h3, h4, h5, h6, hFind, hrej, hRegister]
  cases hd : strategy.Dispatch (dispatchOf guid connection parameters clientID client kind
      vcapRequestID t) with
  | error err => simp [dispatchOf]
  | ok responses => cases responses <;> simp [jsonMarshalResponses, dispatchOf]

theorem execute_dispatch_request_witness :
    (sampleRun false ["notifications.write"] none acceptAll).calls
      = [.newNotify sampleRequest.Body, .validate sampleParams,
          .clientAndKind { Connection := 7 } "notifications-sender" sampleParams.KindID,
          .register 7 sampleClient [sampleKind false],
          .dispatch
            { GUID := "user-123"
              Connection := 7
              Role := sampleParams.Role
              Client := { ID := "notifications-sender", Description := sampleClient.Description }
              Kind := { ID := sampleParams.KindID, Description := (sampleKind false).Description }
              VCAPRequest := { ID := "vcap-1", ReceiptTime := 1400000000 }
              Message :=
                { To := sampleParams.To
                  ReplyTo := sampleParams.ReplyTo
                  Subject := sampleParams.Subject
                  Text := sampleParams.Text
                  HTML :=
                    { BodyContent := sampleParams.ParsedHTML.BodyContent
                      BodyAttributes := sampleParams.ParsedHTML.BodyAttributes
                      Head := sampleParams.ParsedHTML.Head
                      Doctype := sampleParams.ParsedHTML.Doctype } } }] :=
  execute_dispatch_request (sampleNotify false none) sampleNewNotify 7 sampleRequest
    (sampleContext ["notifications.write"]) "user-123" sampleStrategy acceptAll "vcap-1"
    sampleParams sampleParams 1400000000 (sampleToken ["notifications.write"])
    "notifications-sender" { Connection := 7 } sampleClient (sampleKind false)
    ⟨rfl, rfl, rfl, rfl, rfl, rfl⟩ rfl (by decide) rfl

/-- C26: when the kind that the finder yields for this request is not critical, the
run of `Notify.Execute` does not depend on the scope claim of the token: two runs whose
contexts differ only in the token, and whose tokens differ only in the `scope` claim
(which may be missing or not a list), end the same way, with the same output, the same
error and the same calls. -/
theorem execute_scope_irrelevant_when_not_critical (handler : Notify)
    (newNotify : String → Except Error NotifyParams) (connection : Connection)
    (req : Request) (context other : Context) (guid : String) (strategy : Strategy)
    (validator : Validator) (vcapRequestID : String) (token otherToken : Token)
    (hContext : ∀ key, key ≠ "token" → other.Get key = context.Get key)
    (hToken : context.Get "token" = .token token)
    (hOther : other.Get "token" = .token otherToken)
    (hClaims : ∀ key, key ≠ "scope" → otherToken.Claims key = token.Claims key)
    (hKind : ∀ parsed parameters clientID db client kind,
      newNotify req.Body = .ok parsed → validator.Validate parsed = (true, parameters) →
      token.Claims "client_id" = .str clientID → context.Get "database" = .database db →
      handler.finder.ClientAndKind db clientID parameters.KindID = .ok (client, kind) →
      kind.Critical = false) :
    handler.Execute newNotify connection req other guid strategy validator vcapRequestID
      = handler.Execute newNotify connection req context guid strategy validator
          vcapRequestID := by
  have e1 : other.Get RequestReceivedTime = context.Get RequestReceivedTime :=
    hContext _ (by decide)
  have e2 : other.Get "database" = context.Get "database" := hContext _ (by decide)
  have e3 : otherToken.Claims "client_id" = token.Claims "client_id" :=
    hClaims _ (by decide)
  cases h1 : newNotify req.Body with
  | error e => simp [Notify.Execute, h1]
  | ok parsed =>
  rcases h2 : validator.Validate parsed with ⟨v, parameters⟩
  cases v with
  | false => simp [Notify.Execute, h1, h2]
  | true =>
  cases h3 : context.Get RequestReceivedTime with
  | time t =>
    cases h5 : token.Claims "client_id" with
    | str clientID =>
      cases h6 : context.Get "database" with
      | database db =>
        cases h7 : handler.finder.ClientAndKind db clientID parameters.KindID with
        | error e =>
          simp [Notify.Execute, h1, h2, h3, hToken, hOther, e1, e2, e3, h5, h6, h7]
        | ok ck =>
          obtain ⟨client, kind⟩ := ck
          have hc : kind.Critical = false :=
            hKind parsed parameters clientID db client kind h1 h2 h5 h6 h7
          simp [Notify.Execute, h1, h2, h3, hToken, hOther, e1, e2, e3, h5, h6, h7, hc]
      | _ => simp [Notify.Execute, h1, h2, h3, hToken, hOther, e1, e2, e3, h5, h6]
    | _ => simp [Notify.Execute, h1, h2, h3, hToken, hOther, e1, e2, e3, h5]
  | _ => simp [Notify.Execute, h1, h2, h3, e1]

theorem execute_scope_irrelevant_when_not_critical_witness :
    sampleMixedNotify.Execute sampleNewNotify 7 sampleRequest
        { Get := fun key =>
            if key = "token" then
              .token { Claims := fun k =>
                if k = "scope" then .absent else (sampleToken []).Claims k }
            else (sampleContext []).Get key }
        "user-123" sampleStrategy acceptAll "vcap-1"
      = sampleMixedNotify.Execute sampleNewNotify 7 sampleRequest (sampleContext [])
          "user-123" sampleStrategy acceptAll "vcap-1" :=
  execute_scope_irrelevant_when_not_critical sampleMixedNotify sampleNewNotify 7
    sampleRequest (sampleContext [])
    { Get := fun key =>
        if key = "token" then
          .token { Claims := fun k =>
            if k = "scope" then .absent else (sampleToken []).Claims k }
        else (sampleContext []).Get key }
    "user-123" sampleStrategy acceptAll "vcap-1" (sampleToken [])
    { Claims := fun k => if k = "scope" then .absent else (sampleToken []).Claims k }
    (fun key h => by simp [h]) rfl rfl (fun key h => by simp [h])
    (fun parsed parameters _ _ _ kind hp hv _ _ hf => by
      have hparsed : parsed = sampleParams := by
        have h : sampleNewNotify sampleRequest.Body = .ok sampleParams := rfl
        rw [h] at hp
        exact (Except.ok.inj hp).symm
      have hparams : parameters = sampleParams := by
        simp only [acceptAll, Prod.mk.injEq, true_and] at hv
        rw [← hv, hparsed]
      simp only [sampleMixedNotify, Except.ok.injEq, Prod.mk.injEq] at hf
      rw [← hf.2, hparams]
      rfl)

/-! ## Further theorems on `CreateHandler.ServeHTTP` -/

/-- C27: when the body cannot be decoded into the create request,
`CreateHandler.ServeHTTP` answers with status 400 and the body
`{ "errors": [ "invalid json body" ] }`, and does not call `Set`. -/
theorem create_sender_invalid_json (h : CreateHandler)
    (decode : String → Except Error String) (w : ResponseWriter) (req : Request)
    (context : Context) (err : Error)
    (hFresh : w.Code = 0) (hDecode : decode req.Body = .error err) :
    h.ServeHTTP decode w req context
      = { response := some { Code := 400
                             Body := w.Body ++ "\x7b \"errors\": [ \"invalid json body\" ] \x7d" }
          calls := [] } := by
  simp [CreateHandler.ServeHTTP, hDecode, ResponseWriter.WriteHeader, ResponseWriter.Write,
    hFresh]

theorem create_sender_invalid_json_witness :
    (CreateHandler.mk sampleSenders).ServeHTTP sampleDecode ⟨0, ""⟩
        { Path := "/senders", Body := "" } (sampleCreateContext "my-client")
      = { response := some { Code := 400
                             Body := "" ++ "\x7b \"errors\": [ \"invalid json body\" ] \x7d" }
          calls := [] } :=
  create_sender_invalid_json (CreateHandler.mk sampleSenders) sampleDecode ⟨0, ""⟩
    { Path := "/senders", Body := "" } (sampleCreateContext "my-client") (.other "EOF")
    rfl rfl

/-- C28: when the body decodes to an empty name (the name is empty or absent) and the
context holds the database, `CreateHandler.ServeHTTP` answers with status 422 and the
body `{ "errors": [ "missing sender name" ] }` and does not call `Set`, whatever the
context holds as client id: the name is checked before the client id. -/
theorem create_sender_missing_name (h : CreateHandler)
    (decode : String → Except Error String) (w : ResponseWriter) (req : Request)
    (context : Context) (database : Database)
    (hFresh : w.Code = 0) (hDecode : decode req.Body = .ok "")
    (hDatabase : context.Get "database" = .database database) :
    h.ServeHTTP decode w req context
      = { response := some { Code := 422
                             Body := w.Body ++ "\x7b \"errors\": [ \"missing sender name\" ] \x7d" }
          calls := [] } := by
  simp [CreateHandler.ServeHTTP, hDecode, hDatabase, ResponseWriter.WriteHeader,
    ResponseWriter.Write, hFresh]

theorem create_sender_missing_name_witness :
    (CreateHandler.mk sampleSenders).ServeHTTP (fun _ => .ok "") ⟨0, ""⟩ sampleCreateRequest
        (sampleCreateContext "")
      = { response := some { Code := 422
                             Body := "" ++ "\x7b \"errors\": [ \"missing sender name\" ] \x7d" }
          calls := [] } :=
  create_sender_missing_name (CreateHandler.mk sampleSenders) (fun _ => .ok "") ⟨0, ""⟩
    sampleCreateRequest (sampleCreateContext "") { Connection := 7 } rfl rfl rfl

/-- C29: when the name is not empty, the context holds the database and its client id
is the empty string, `CreateHandler.ServeHTTP` answers with status 401 and the body
`{ "errors": [ "missing client id" ] }`, and does not call `Set`. -/
theorem create_sender_missing_client_id (h : CreateHandler)
    (decode : String → Except Error String) (w : ResponseWriter) (req : Request)
    (context : Context) (name : String) (database : Database)
    (hFresh : w.Code = 0) (hDecode : decode req.Body = .ok name) (hName : name ≠ "")
    (hDatabase : context.Get "database" = .database database)
    (hClient : context.Get "client_id" = .str "") :
    h.ServeHTTP decode w req context
      = { response := some { Code := 401
                             Body := w.Body ++ "\x7b \"errors\": [ \"missing client id\" ] \x7d" }
          calls := [] } := by
  simp [CreateHandler.ServeHTTP, hDecode, hName, hDatabase, hClient, CtxValue.isEmptyString,
    ResponseWriter.WriteHeader, ResponseWriter.Write, hFresh]

theorem create_sender_missing_client_id_witness :
    (CreateHandler.mk sampleSenders).ServeHTTP sampleDecode ⟨0, ""⟩ sampleCreateRequest
        (sampleCreateContext "")
      = { response := some { Code := 401
                             Body := "" ++ "\x7b \"errors\": [ \"missing client id\" ] \x7d" }
          calls := [] } :=
  create_sender_missing_client_id (CreateHandler.mk sampleSenders) sampleDecode ⟨0, ""⟩
    sampleCreateRequest (sampleCreateContext "") "my-sender" { Connection := 7 } rfl rfl
    (by decide) rfl rfl

/-- C30: when `Set` fails with an error, `CreateHandler.ServeHTTP` answers with status
500 and the body `{ "errors": [ "` followed by the text of the error followed by
`" ] }`: the text is inserted as it is, without JSON escaping, and nothing else is
written, so the answer is not the 201 with the sender. -/
theorem create_sender_set_fails (h : CreateHandler)
    (decode : String → Except Error String) (w : ResponseWriter) (req : Request)
    (context : Context) (name client : String) (database : Database) (message : String)
    (hFresh : w.Code = 0) (hDecode : decode req.Body = .ok name) (hName : name ≠ "")
    (hDatabase : context.Get "database" = .database database)
    (hClient : context.Get "client_id" = .str client) (hClientID : client ≠ "")
    (hSet : h.senders.Set database.Connection { ID := "", Name := name, ClientID := client }
      = .error message) :
    (h.ServeHTTP decode w req context).response
      = some { Code := 500
               Body := w.Body ++ "\x7b \"errors\": [ \"" ++ message ++ "\" ] \x7d" } := by
  simp [CreateHandler.ServeHTTP, hDecode, hName, hDatabase, hClient, hClientID, hSet,
    CtxValue.isEmptyString, ResponseWriter.WriteHeader, ResponseWriter.Write, hFresh,
    String.append_assoc]

theorem create_sender_set_fails_witness :
    ((CreateHandler.mk { Set := fun _ _ => .error "say \"no\"" }).ServeHTTP sampleDecode
        ⟨0, ""⟩ sampleCreateRequest (sampleCreateContext "my-client")).response
      = some { Code := 500
               Body := "" ++ "\x7b \"errors\": [ \"" ++ "say \"no\"" ++ "\" ] \x7d" } :=
  create_sender_set_fails (CreateHandler.mk { Set := fun _ _ => .error "say \"no\"" })
    sampleDecode ⟨0, ""⟩ sampleCreateRequest (sampleCreateContext "my-client") "my-sender"
    "my-client" { Connection := 7 } "say \"no\"" rfl rfl (by decide) rfl rfl (by decide) rfl

/-! ## Theorems on delivery jobs -/

theorem deliver_not_claimable (maxAttempts : Nat) (transport : Nat → SendResult)
    (fuel : Nat) (job : DeliveryJob) (sends : Nat) (h : job.State.claimable = false) :
    deliver maxAttempts transport fuel job sends = (job, sends) := by
  cases fuel with
  | zero => rfl
  | succ fuel => simp [deliver, DeliveryJob.claim, h]

theorem deliver_all_fail (maxAttempts : Nat) (transport : Nat → SendResult)
    (hFail : ∀ n, ∃ err, transport n = .transient err) :
    ∀ (fuel : Nat) (job : DeliveryJob), job.State.claimable = true →
      job.Attempts < maxAttempts → maxAttempts ≤ job.Attempts + fuel →
      (deliver maxAttempts transport fuel job job.Attempts).1.State = .Failed
        ∧ (deliver maxAttempts transport fuel job job.Attempts).1.Attempts = maxAttempts
        ∧ (deliver maxAttempts transport fuel job job.Attempts).2 = maxAttempts := by
  intro fuel
  induction fuel with
  | zero =>
    intro job _ hlt hle
    omega
  | succ fuel ih =>
    intro job hclaim hlt hle
    obtain ⟨err, herr⟩ := hFail (job.Attempts + 1)
    by_cases hnext : job.Attempts + 1 < maxAttempts
    · have hstep : deliver maxAttempts transport (fuel + 1) job job.Attempts
          = deliver maxAttempts transport fuel
              { job with State := .Retrying, Attempts := job.Attempts + 1 }
              (job.Attempts + 1) := by
        simp [deliver, DeliveryJob.claim, hclaim, herr, DeliveryJob.finish, hnext]
      rw [hstep]
      exact ih { job with State := .Retrying, Attempts := job.Attempts + 1 } rfl hnext
        (by simp only; omega)
    · have hstep : deliver maxAttempts transport (fuel + 1) job job.Attempts
          = ({ job with State := .Failed, Attempts := job.Attempts + 1, LastError := some err },
              job.Attempts + 1) := by
        simp only [deliver, DeliveryJob.claim, hclaim, if_true, herr, DeliveryJob.finish,
          if_neg hnext]
        exact deliver_not_claimable _ _ _ _ _ rfl
      rw [hstep]
      refine ⟨rfl, ?_, ?_⟩ <;> simp only <;> omega

theorem deliver_success (maxAttempts : Nat) (transport : Nat → SendResult) (k : Nat)
    (hBudget : k ≤ maxAttempts) (hSent : transport k = .sent) :
    ∀ (fuel : Nat) (job : DeliveryJob), job.State.claimable = true →
      job.Attempts < k → k ≤ job.Attempts + fuel →
      (∀ n, job.Attempts < n → n < k → ∃ err, transport n = .transient err) →
      (deliver maxAttempts transport fuel job job.Attempts).1.State = .Sent
        ∧ (deliver maxAttempts transport fuel job job.Attempts).1.Attempts = k - 1
        ∧ (deliver maxAttempts transport fuel job job.Attempts).2 = k := by
  intro fuel
  induction fuel with
  | zero =>
    intro job _ hlt hle
    omega
  | succ fuel ih =>
    intro job hclaim hlt hle hFail
    by_cases hk : job.Attempts + 1 = k
    · have hstep : deliver maxAttempts transport (fuel + 1) job job.Attempts
          = ({ job with State := .Sent }, job.Attempts + 1) := by
        simp only [deliver, DeliveryJob.claim, hclaim, if_true, hk, hSent, DeliveryJob.finish]
        rw [← hk]
        exact deliver_not_claimable _ _ _ _ _ rfl
      rw [hstep]
      refine ⟨rfl, ?_, hk⟩
      simp only
      omega
    · obtain ⟨err, herr⟩ := hFail (job.Attempts + 1) (by omega) (by omega)
      have hnext : job.Attempts + 1 < maxAttempts := by omega
      have hstep : deliver maxAttempts transport (fuel + 1) job job.Attempts
          = deliver maxAttempts transport fuel
              { job with State := .Retrying, Attempts := job.Attempts + 1 }
              (job.Attempts + 1) := by
        simp [deliver, DeliveryJob.claim, hclaim, herr, DeliveryJob.finish, hnext]
      rw [hstep]
      exact ih { job with State := .Retrying, Attempts := job.Attempts + 1 } rfl
        (by simp only; omega) (by simp only; omega)
        (fun n h1 h2 => hFail n (by simp only at h1; omega) h2)

/-- C22: for every retry budget of at least one, a freshly queued job driven by a worker
for at least as many rounds as the budget ends in `Failed` with attempt count exactly
the budget, after exactly that many sends, when every send fails transiently; and when
the sends before the `k`-th fail transiently and the `k`-th succeeds, with `k` within
the budget, it ends in `Sent` after exactly `k` sends, however many rounds are left. -/
theorem deliver_retry_budget (maxAttempts : Nat) (transport : Nat → SendResult)
    (fuel : Nat) (job : DeliveryJob)
    (hBudget : 1 ≤ maxAttempts) (hQueued : job.State = .Queued) (hFresh : job.Attempts = 0)
    (hFuel : maxAttempts ≤ fuel) :
    ((∀ n, ∃ err, transport n = .transient err) →
        (deliver maxAttempts transport fuel job 0).1.State = .Failed
          ∧ (deliver maxAttempts transport fuel job 0).1.Attempts = maxAttempts
          ∧ (deliver maxAttempts transport fuel job 0).2 = maxAttempts)
      ∧ (∀ k, 1 ≤ k → k ≤ maxAttempts →
          (∀ n, 1 ≤ n → n < k → ∃ err, transport n = .transient err) →
          transport k = .sent →
          (deliver maxAttempts transport fuel job 0).1.State = .Sent
            ∧ (deliver maxAttempts transport fuel job 0).2 = k) := by
  have hclaim : job.State.claimable = true := by rw [hQueued]; rfl
  constructor
  · intro hFail
    have h := deliver_all_fail maxAttempts transport hFail fuel job hclaim (by omega)
      (by omega)
    rw [hFresh] at h
    exact h
  · intro k hk1 hk2 hFail hSent
    have h := deliver_success maxAttempts transport k hk2 hSent fuel job hclaim (by omega)
      (by omega) (fun n h1 h2 => hFail n (by omega) h2)
    rw [hFresh] at h
    exact ⟨h.1, h.2.2⟩

theorem deliver_retry_budget_witness :
    ((deliver 3 (fun _ => .transient "some error") 10 sampleJob 0).1.State = .Failed
        ∧ (deliver 3 (fun _ => .transient "some error") 10 sampleJob 0).1.Attempts = 3
        ∧ (deliver 3 (fun _ => .transient "some error") 10 sampleJob 0).2 = 3)
      ∧ ((deliver 3 (fun n => if n = 2 then .sent else .transient "some error") 10
            sampleJob 0).1.State = .Sent
          ∧ (deliver 3 (fun n => if n = 2 then .sent else .transient "some error") 10
            sampleJob 0).2 = 2) :=
  ⟨(deliver_retry_budget 3 (fun _ => .transient "some error") 10 sampleJob (by decide) rfl
      rfl (by decide)).1 (fun _ => ⟨"some error", rfl⟩),
   (deliver_retry_budget 3 (fun n => if n = 2 then .sent else .transient "some error") 10
      sampleJob (by decide) rfl rfl (by decide)).2 2 (by decide) (by decide)
      (fun n h1 h2 => ⟨"some error", by
        have hn : n = 1 := by omega
        subst hn
        rfl⟩) rfl⟩

/-! ## Theorems on the completion of a campaign -/

theorem apply_terminal (maxAttempts : Nat) (job : DeliveryJob) (event : JobEvent)
    (h : job.State.terminal = true) : job.apply maxAttempts event = job := by
  cases event with
  | claim =>
    cases hs : job.State <;> simp_all [DeliveryJob.apply, DeliveryJob.claim, JobState.claimable,
      JobState.terminal]
  | finish result =>
    cases hs : job.State <;> simp_all [DeliveryJob.apply, JobState.terminal]

theorem applyAt_allTerminal (f : DeliveryJob → DeliveryJob)
    (hf : ∀ job, job.State.terminal = true → f job = job) :
    ∀ (i : Nat) (jobs : List DeliveryJob), allTerminal jobs = true → applyAt f i jobs = jobs := by
  intro i jobs
  induction jobs generalizing i with
  | nil => intro _; cases i <;> rfl
  | cons job jobs ih =>
    intro h
    simp only [allTerminal, List.all_cons, Bool.and_eq_true] at h
    cases i with
    | zero => simp only [applyAt, hf job h.1]
    | succ i =>
      simp only [applyAt]
      rw [ih i (by simpa [allTerminal] using h.2)]

theorem applyAt_last (f : DeliveryJob → DeliveryJob) :
    ∀ (i : Nat) (jobs : List DeliveryJob), allTerminal jobs = false →
      allTerminal (applyAt f i jobs) = true →
      ∃ job, jobs.get? i = some job ∧ job.State.terminal = false
        ∧ (f job).State.terminal = true := by
  intro i jobs
  induction jobs generalizing i with
  | nil => intro h; simp [allTerminal] at h
  | cons job jobs ih =>
    intro hbefore hafter
    cases i with
    | zero =>
      simp only [applyAt, allTerminal, List.all_cons, Bool.and_eq_true] at hafter
      refine ⟨job, rfl, ?_, hafter.1⟩
      cases hj : job.State.terminal with
      | false => rfl
      | true =>
        have : allTerminal (job :: jobs) = true := by
          simp only [allTerminal, List.all_cons, Bool.and_eq_true]
          exact ⟨hj, hafter.2⟩
        rw [this] at hbefore
        exact absurd hbefore (by decide)
    | succ i =>
      simp only [applyAt, allTerminal, List.all_cons, Bool.and_eq_true] at hafter
      have hrest : allTerminal jobs = false := by
        cases hr : allTerminal jobs with
        | false => rfl
        | true =>
          have : allTerminal (job :: jobs) = true := by
            simp only [allTerminal, List.all_cons, Bool.and_eq_true]
            exact ⟨hafter.1, by simpa [allTerminal] using hr⟩
          rw [this] at hbefore
          exact absurd hbefore (by decide)
      obtain ⟨j, hj1, hj2, hj3⟩ := ih i hrest (by simpa [allTerminal] using hafter.2)
      exact ⟨j, by simpa using hj1, hj2, hj3⟩

/-- What a step does to the completion time of a campaign that has none yet. -/
theorem step_completedTime_of_none (maxAttempts : Nat) (c : CampaignRun) (i : Nat)
    (event : JobEvent) (now : Time) (hnone : c.completedTime = none)
    (hopen : allTerminal c.jobs = false) :
    (c.step maxAttempts i event now).completedTime
      = if allTerminal (c.step maxAttempts i event now).jobs then some now else none := by
  cases hafter : allTerminal (c.step maxAttempts i event now).jobs with
  | false =>
    have hafter2 : allTerminal (applyAt (fun job => job.apply maxAttempts event) i c.jobs)
        = false := hafter
    simp only [CampaignRun.step, hnone, hafter2, Bool.and_false]
    cases c.jobs.get? i <;> simp
  | true =>
    have hafter2 : allTerminal (applyAt (fun job => job.apply maxAttempts event) i c.jobs)
        = true := hafter
    obtain ⟨job, h1, h2, h3⟩ := applyAt_last _ i c.jobs hopen hafter2
    have h1b : c.jobs[i]? = some job := by simpa using h1
    simp [CampaignRun.step, hnone, hafter2, h1b, h2, h3]

theorem step_completedTime_of_some (maxAttempts : Nat) (c : CampaignRun) (i : Nat)
    (event : JobEvent) (now t : Time) (h : c.completedTime = some t) :
    (c.step maxAttempts i event now).completedTime = some t := by
  simp [CampaignRun.step, h]

theorem run_completedTime_of_some (maxAttempts : Nat) (events : List CampaignEvent) :
    ∀ (c : CampaignRun) (t : Time), c.completedTime = some t →
      (c.run maxAttempts events).completedTime = some t := by
  induction events with
  | nil => intro c t h; exact h
  | cons e events ih =>
    intro c t h
    exact ih _ t (step_completedTime_of_some maxAttempts c e.job e.event e.time t h)

theorem step_invariant (maxAttempts : Nat) (c : CampaignRun) (i : Nat) (event : JobEvent)
    (now : Time) (h : c.completedTime.isSome = allTerminal c.jobs) :
    (c.step maxAttempts i event now).completedTime.isSome
      = allTerminal (c.step maxAttempts i event now).jobs := by
  cases hc : c.completedTime with
  | some t =>
    rw [hc] at h
    have hall : allTerminal c.jobs = true := h.symm
    have hjobs : (c.step maxAttempts i event now).jobs = c.jobs :=
      applyAt_allTerminal _ (fun job hj => apply_terminal maxAttempts job event hj) i c.jobs
        hall
    rw [step_completedTime_of_some maxAttempts c i event now t hc, hjobs, hall]
    rfl
  | none =>
    rw [hc] at h
    have hopen : allTerminal c.jobs = false := h.symm
    rw [step_completedTime_of_none maxAttempts c i event now hc hopen]
    cases allTerminal (c.step maxAttempts i event now).jobs <;> rfl

theorem run_invariant (maxAttempts : Nat) (events : List CampaignEvent) :
    ∀ c : CampaignRun, c.completedTime.isSome = allTerminal c.jobs →
      (c.run maxAttempts events).completedTime.isSome
        = allTerminal (c.run maxAttempts events).jobs := by
  induction events with
  | nil => intro c h; exact h
  | cons e events ih =>
    intro c h
    exact ih _ (step_invariant maxAttempts c e.job e.event e.time h)

theorem enqueue_invariant (campaignID : String) (messages : List (Recipient × String))
    (start : Time) (h : messages ≠ []) :
    (CampaignRun.enqueue campaignID messages start).completedTime.isSome
      = allTerminal (CampaignRun.enqueue campaignID messages start).jobs := by
  cases messages with
  | nil => exact absurd rfl h
  | cons m ms => simp [CampaignRun.enqueue, allTerminal, JobState.terminal]

theorem allTerminal_iff (jobs : List DeliveryJob) :
    allTerminal jobs = true ↔ ∀ job ∈ jobs, job.State = .Sent ∨ job.State = .Failed := by
  simp only [allTerminal, List.all_eq_true]
  constructor
  · intro h job hj
    have := h job hj
    cases hs : job.State <;> simp_all [JobState.terminal]
  · intro h job hj
    rcases h job hj with hs | hs <;> simp [hs, JobState.terminal]

/-- C21, as the claim states it, fails for a campaign without jobs: all of its (no)
jobs are terminal from the start, yet its completion time is never set, no transition
taking a last job to a terminal state. -/
theorem campaign_without_jobs_example :
    ¬ (((CampaignRun.enqueue "campaign-1" [] 5).run 3 []).completedTime ≠ none
        ↔ ∀ job ∈ ((CampaignRun.enqueue "campaign-1" [] 5).run 3 []).jobs,
            job.State = .Sent ∨ job.State = .Failed) := by
  simp [CampaignRun.run, CampaignRun.enqueue]

/-- C21, amended: in every reachable state of a campaign enqueued with at least one
job, the completion time is set exactly when every job is `Sent` or `Failed`; a step
that sets it sets it to the time of the step, is on a job that was not terminal, and
leaves every job terminal; and once set it is the same after any further events. -/
theorem campaign_completed_iff_all_terminal (maxAttempts : Nat) (campaignID : String)
    (messages : List (Recipient × String)) (start : Time) (events : List CampaignEvent)
    (hJobs : messages ≠ []) :
    (((CampaignRun.enqueue campaignID messages start).run maxAttempts events).completedTime
          ≠ none
        ↔ ∀ job ∈ ((CampaignRun.enqueue campaignID messages start).run maxAttempts
            events).jobs, job.State = .Sent ∨ job.State = .Failed)
      ∧ (∀ i event now t,
          ((CampaignRun.enqueue campaignID messages start).run maxAttempts
            events).completedTime = none →
          (((CampaignRun.enqueue campaignID messages start).run maxAttempts events).step
            maxAttempts i event now).completedTime = some t →
          t = now
            ∧ (∃ job, ((CampaignRun.enqueue campaignID messages start).run maxAttempts
                  events).jobs.get? i = some job
                ∧ job.State.terminal = false
                ∧ (job.apply maxAttempts event).State.terminal = true)
            ∧ ∀ job ∈ (((CampaignRun.enqueue campaignID messages start).run maxAttempts
                events).step maxAttempts i event now).jobs,
                job.State = .Sent ∨ job.State = .Failed)
      ∧ (∀ t more,
          ((CampaignRun.enqueue campaignID messages start).run maxAttempts
            events).completedTime = some t →
          (((CampaignRun.enqueue campaignID messages start).run maxAttempts events).run
            maxAttempts more).completedTime = some t) := by
  have hinv := run_invariant maxAttempts events _
    (enqueue_invariant campaignID messages start hJobs)
  generalize (CampaignRun.enqueue campaignID messages start).run maxAttempts events = c
    at hinv ⊢
  refine ⟨?_, ?_, ?_⟩
  · rw [← allTerminal_iff, ← hinv]
    cases c.completedTime <;> simp
  · intro i event now t hnone hset
    have hopen : allTerminal c.jobs = false := by
      rw [← hinv, hnone]
      rfl
    rw [step_completedTime_of_none maxAttempts c i event now hnone hopen] at hset
    cases hall : allTerminal (c.step maxAttempts i event now).jobs with
    | false => simp [hall] at hset
    | true =>
      simp only [hall, if_true, Option.some.injEq] at hset
      refine ⟨hset.symm, ?_, (allTerminal_iff _).mp hall⟩
      exact applyAt_last _ i c.jobs hopen hall
  · intro t more h
    exact run_completedTime_of_some maxAttempts more c t h

theorem campaign_completed_iff_all_terminal_witness :
    ((CampaignRun.enqueue "campaign-1" [(sampleRecipient, "m"), (sampleRecipient, "n")] 5).run
          3 [⟨0, .claim, 6⟩, ⟨0, .finish .sent, 7⟩, ⟨1, .claim, 8⟩,
            ⟨1, .finish (.permanent "x"), 9⟩]).completedTime ≠ none
      ↔ ∀ job ∈ ((CampaignRun.enqueue "campaign-1"
            [(sampleRecipient, "m"), (sampleRecipient, "n")] 5).run 3
            [⟨0, .claim, 6⟩, ⟨0, .finish .sent, 7⟩, ⟨1, .claim, 8⟩,
              ⟨1, .finish (.permanent "x"), 9⟩]).jobs,
          job.State = .Sent ∨ job.State = .Failed :=
  (campaign_completed_iff_all_terminal 3 "campaign-1"
    [(sampleRecipient, "m"), (sampleRecipient, "n")] 5
    [⟨0, .claim, 6⟩, ⟨0, .finish .sent, 7⟩, ⟨1, .claim, 8⟩, ⟨1, .finish (.permanent "x"), 9⟩]
    (List.cons_ne_nil _ _)).1

end Notifications
